import Mathlib

/-!
Verification of the SSH flows app (spacelift-flows-apps/flows-app-ssh).

The app exposes five SSH operations as blocks: Execute Command
(src/blocks/executeCommand.ts), Upload File and Download File and Execute
Script (src/blocks/files.ts), and Host Metadata (src/blocks/hostMetadata.ts),
declared by defineApp in the app entry point.  Each block's onEvent/onSync
body is embedded below as a pure function over an explicit wire oracle (the
outcomes the network hands back at each awaited step) and an explicit world
(local and remote file contents), returning the operation's result together
with the trace of performed actions.
-/

set_option maxHeartbeats 1000000

/-! ### Models of JavaScript primitives used by the blocks -/

/-- Truthiness of a JavaScript value that is either a string or `undefined`:
`undefined` and the empty string are falsy, every other string is truthy. -/
def jsTruthy : Option String → Bool
  | none => false
  | some s => s ≠ ""

/-- The JavaScript expression `a || b` on two optional strings, as in
`username || defaultUsername` (executeCommand.ts line 54): returns `a`
when truthy, else `b`. -/
def jsOrStr (a b : Option String) : Option String :=
  if jsTruthy a then a else b

/-- The JavaScript expression `a || d` with a plain string default, as in
`interpreter || "sh"` (files.ts line 390). -/
def jsOrDefault (a : Option String) (d : String) : String :=
  match a with
  | some s => if s = "" then d else s
  | none => d

/-- A whitespace character as trimmed by JavaScript `String#trim`. -/
def isJsWhitespace (c : Char) : Bool :=
  c = ' ' ∨ c = '\t' ∨ c = '\n' ∨ c = '\r'

/-- Models JavaScript `String#trim`: strip leading and trailing
whitespace. -/
def jsTrim (s : String) : String :=
  String.mk
    (((s.data.dropWhile isJsWhitespace).reverse.dropWhile
      isJsWhitespace).reverse)

/-- Models JavaScript `String#toLowerCase` on the ASCII command output the
app handles. -/
def jsToLower (s : String) : String :=
  String.mk (s.data.map Char.toLower)

/-- Split on every single occurrence of a separator character, keeping
empty tokens, as JavaScript `String#split` with a one-character string
separator does. -/
def splitOnCharAux (sep : Char) (acc : List Char) : List Char → List String
  | [] => [String.mk acc.reverse]
  | c :: rest =>
    if c = sep then
      String.mk acc.reverse :: splitOnCharAux sep [] rest
    else
      splitOnCharAux sep (c :: acc) rest

/-- Entry point of the single-character split model. -/
def splitOnChar (sep : Char) (s : String) : List String :=
  splitOnCharAux sep [] s.data

/-- Value of a decimal digit string read left to right. -/
def digitsToNat (ds : List Char) : Nat :=
  ds.foldl (fun a c => a * 10 + (c.toNat - 48)) 0

/-- Models JavaScript `parseInt` on the non-negative decimal strings produced
by `stat -c "%a %Y"`: parses a maximal leading run of digits, `none` when
there is none (`parseInt` then yields `NaN`). -/
def jsParseInt (s : String) : Option Int :=
  let ds := s.data.takeWhile Char.isDigit
  if ds = [] then none else some (digitsToNat ds)

/-- Models JavaScript `parseFloat` on the plain non-negative decimal strings
found in `/proc/loadavg` and `/proc/uptime` output: parses a maximal leading
numeric prefix `digits[.digits]` or `.digits`, `none` when there is no
numeric prefix (`parseFloat` then yields `NaN`). -/
def jsParseFloat (s : String) : Option Rat :=
  let cs := s.data
  let intDs := cs.takeWhile Char.isDigit
  let rest := cs.dropWhile Char.isDigit
  match intDs, rest with
  | [], '.' :: r =>
    let fds := r.takeWhile Char.isDigit
    if fds = [] then none
    else some ((digitsToNat fds : Rat) / (10 ^ fds.length))
  | [], _ => none
  | ds, '.' :: r =>
    let fds := r.takeWhile Char.isDigit
    some ((digitsToNat ds : Rat) + (digitsToNat fds : Rat) / (10 ^ fds.length))
  | ds, _ => some (digitsToNat ds)

/-- A separator character of the regular expression `[, ]+` used in
hostMetadata.ts line 109. -/
def isCommaSpace (c : Char) : Bool := c = ',' ∨ c = ' '

/-- Models JavaScript `String#split(/[, ]+/)`: tokens between maximal runs
of commas and spaces, keeping the empty tokens that arise at the start and
end of the string exactly as the JS engine does. -/
def splitCommaSpaceAux (acc : List Char) : List Char → List String
  | [] => [String.mk acc.reverse]
  | c :: rest =>
    if isCommaSpace c then
      String.mk acc.reverse :: splitCommaSpaceAux [] (rest.dropWhile isCommaSpace)
    else
      splitCommaSpaceAux (c :: acc) rest
termination_by l => l.length
decreasing_by
  · simp only [List.length_cons]
    have h := (List.dropWhile_sublist (l := rest) (p := isCommaSpace)).length_le
    omega
  · simp only [List.length_cons]
    omega

/-- Entry point for the `[, ]+` split model. -/
def splitCommaSpace (s : String) : List String :=
  splitCommaSpaceAux [] s.data

/-! ### Base64, as implemented by Node's `Buffer` for the `"base64"` encoding -/

/-- The standard base64 alphabet used by `Buffer.from(_, "base64")` and
`Buffer#toString("base64")`. -/
def b64Alphabet : List Char :=
  "ABCDEFGHIJKLMNOPQRSTUVWXYZabcdefghijklmnopqrstuvwxyz0123456789+/".toList

/-- Alphabet character of a six-bit group. -/
def b64EncChar (s : Nat) : Char := b64Alphabet.getD s 'A'

/-- Six-bit value of an alphabet character, `none` for characters outside
the alphabet (such as the padding character). -/
def b64DecChar (c : Char) : Option Nat :=
  b64Alphabet.findIdx? (fun d => d = c)

/-- Base64 rendering of a byte sequence (Node `Buffer#toString("base64")`):
three bytes become four alphabet characters, a final one- or two-byte group
is padded with `=`. -/
def base64Encode : List Nat → List Char
  | [] => []
  | [a] => [b64EncChar (a / 4), b64EncChar (a % 4 * 16), '=', '=']
  | [a, b] => [b64EncChar (a / 4), b64EncChar (a % 4 * 16 + b / 16),
      b64EncChar (b % 16 * 4), '=']
  | a :: b :: c :: rest =>
    b64EncChar (a / 4) :: b64EncChar (a % 4 * 16 + b / 16) ::
      b64EncChar (b % 16 * 4 + c / 64) :: b64EncChar (c % 64) ::
      base64Encode rest

/-- Byte sequence denoted by a base64 string (Node `Buffer.from(_, "base64")`).
Exact on canonical base64; Node is additionally lenient about stray
characters, which no claim exercises. -/
def base64Decode : List Char → Option (List Nat)
  | [] => some []
  | c1 :: c2 :: c3 :: c4 :: rest =>
    if c3 = '=' ∧ c4 = '=' ∧ rest = [] then
      match b64DecChar c1, b64DecChar c2 with
      | some s1, some s2 => some [s1 * 4 + s2 / 16]
      | _, _ => none
    else if c4 = '=' ∧ rest = [] then
      match b64DecChar c1, b64DecChar c2, b64DecChar c3 with
      | some s1, some s2, some s3 =>
        some [s1 * 4 + s2 / 16, s2 % 16 * 16 + s3 / 4]
      | _, _, _ => none
    else
      match b64DecChar c1, b64DecChar c2, b64DecChar c3, b64DecChar c4 with
      | some s1, some s2, some s3, some s4 =>
        (base64Decode rest).map
          (fun bs => (s1 * 4 + s2 / 16) :: (s2 % 16 * 16 + s3 / 4) ::
            (s3 % 4 * 64 + s4) :: bs)
      | _, _, _, _ => none
  | _ => none

theorem b64DecChar_encChar_fin : ∀ s : Fin 64,
    b64DecChar (b64EncChar s.val) = some s.val := by decide

theorem b64EncChar_ne_pad_fin : ∀ s : Fin 64, ¬ b64EncChar s.val = '=' := by
  decide

theorem b64DecChar_encChar {s : Nat} (h : s < 64) :
    b64DecChar (b64EncChar s) = some s :=
  b64DecChar_encChar_fin ⟨s, h⟩

theorem b64EncChar_ne_pad {s : Nat} (h : s < 64) : ¬ b64EncChar s = '=' :=
  b64EncChar_ne_pad_fin ⟨s, h⟩

/-- Decoding inverts encoding on byte sequences. -/
theorem base64_decode_encode : ∀ B : List Nat, (∀ x ∈ B, x < 256) →
    base64Decode (base64Encode B) = some B := by
  intro B
  induction B using base64Encode.induct with
  | case1 =>
    intro _
    rfl
  | case2 a =>
    intro h
    have ha : a < 256 := h a (by simp)
    have h1 : b64DecChar (b64EncChar (a / 4)) = some (a / 4) :=
      b64DecChar_encChar (by omega)
    have h2 : b64DecChar (b64EncChar (a % 4 * 16)) = some (a % 4 * 16) :=
      b64DecChar_encChar (by omega)
    simp [base64Encode, base64Decode, h1, h2]
    omega
  | case3 a b =>
    intro h
    have ha : a < 256 := h a (by simp)
    have hb : b < 256 := h b (by simp)
    have h1 : b64DecChar (b64EncChar (a / 4)) = some (a / 4) :=
      b64DecChar_encChar (by omega)
    have h2 : b64DecChar (b64EncChar (a % 4 * 16 + b / 16)) =
        some (a % 4 * 16 + b / 16) := b64DecChar_encChar (by omega)
    have h3 : b64DecChar (b64EncChar (b % 16 * 4)) = some (b % 16 * 4) :=
      b64DecChar_encChar (by omega)
    have hne : ¬ b64EncChar (b % 16 * 4) = '=' := b64EncChar_ne_pad (by omega)
    simp [base64Encode, base64Decode, h1, h2, h3, hne]
    omega
  | case4 a b c rest ih =>
    intro h
    have ha : a < 256 := h a (by simp)
    have hb : b < 256 := h b (by simp)
    have hc : c < 256 := h c (by simp)
    have hrest : ∀ x ∈ rest, x < 256 := by
      intro x hx
      exact h x (by simp [hx])
    have h1 : b64DecChar (b64EncChar (a / 4)) = some (a / 4) :=
      b64DecChar_encChar (by omega)
    have h2 : b64DecChar (b64EncChar (a % 4 * 16 + b / 16)) =
        some (a % 4 * 16 + b / 16) := b64DecChar_encChar (by omega)
    have h3 : b64DecChar (b64EncChar (b % 16 * 4 + c / 64)) =
        some (b % 16 * 4 + c / 64) := b64DecChar_encChar (by omega)
    have h4 : b64DecChar (b64EncChar (c % 64)) = some (c % 64) :=
      b64DecChar_encChar (by omega)
    have hne3 : ¬ b64EncChar (b % 16 * 4 + c / 64) = '=' :=
      b64EncChar_ne_pad (by omega)
    have hne4 : ¬ b64EncChar (c % 64) = '=' := b64EncChar_ne_pad (by omega)
    have e1 : a / 4 * 4 + (a % 4 * 16 + b / 16) / 16 = a := by omega
    have e2 : (a % 4 * 16 + b / 16) % 16 * 16 + (b % 16 * 4 + c / 64) / 4 = b := by
      omega
    have e3 : (b % 16 * 4 + c / 64) % 4 * 64 + c % 64 = c := by omega
    simp [base64Encode, base64Decode, h1, h2, h3, h4, hne3, hne4, ih hrest,
      e1, e2, e3]

/-! ### UTF-8, as used by `fs.writeFile` on strings and `Buffer#toString("utf8")` -/

/-- UTF-8 byte sequence of one Unicode code point. -/
def utf8EncodeCp (c : Nat) : List Nat :=
  if c < 128 then [c]
  else if c < 2048 then [192 + c / 64, 128 + c % 64]
  else if c < 65536 then [224 + c / 4096, 128 + c / 64 % 64, 128 + c % 64]
  else [240 + c / 262144, 128 + c / 4096 % 64, 128 + c / 64 % 64, 128 + c % 64]

/-- UTF-8 byte sequence of a code point sequence, as `fs.writeFile` produces
for a JavaScript string. -/
def utf8Encode : List Nat → List Nat
  | [] => []
  | c :: rest => utf8EncodeCp c ++ utf8Encode rest

/-- One step of UTF-8 decoding: given a leading byte and the remaining
bytes, return the decoded code point and the bytes after its encoding. -/
def utf8Step (b1 : Nat) (rest : List Nat) : Option (Nat × List Nat) :=
  if b1 < 128 then some (b1, rest)
  else if b1 < 192 then none
  else if b1 < 224 then
    match rest with
    | b2 :: r =>
      if 128 ≤ b2 ∧ b2 < 192 then some ((b1 - 192) * 64 + (b2 - 128), r)
      else none
    | [] => none
  else if b1 < 240 then
    match rest with
    | b2 :: b3 :: r =>
      if (128 ≤ b2 ∧ b2 < 192) ∧ (128 ≤ b3 ∧ b3 < 192) then
        some ((b1 - 224) * 4096 + (b2 - 128) * 64 + (b3 - 128), r)
      else none
    | _ => none
  else if b1 < 248 then
    match rest with
    | b2 :: b3 :: b4 :: r =>
      if (128 ≤ b2 ∧ b2 < 192) ∧ (128 ≤ b3 ∧ b3 < 192) ∧
          (128 ≤ b4 ∧ b4 < 192) then
        some ((b1 - 240) * 262144 + (b2 - 128) * 4096 + (b3 - 128) * 64 +
          (b4 - 128), r)
      else none
    | _ => none
  else none

theorem utf8Step_length {b1 : Nat} {rest r : List Nat} {cp : Nat}
    (h : utf8Step b1 rest = some (cp, r)) : r.length ≤ rest.length := by
  unfold utf8Step at h
  repeat' split at h
  all_goals simp_all
  all_goals omega

/-- Code points denoted by a UTF-8 byte sequence, as `Buffer#toString("utf8")`
recovers them.  Exact on valid UTF-8; Node additionally substitutes U+FFFD
for ill-formed subsequences, which no claim exercises. -/
def utf8Decode : List Nat → Option (List Nat)
  | [] => some []
  | b1 :: rest =>
    match h : utf8Step b1 rest with
    | some (cp, r) => (utf8Decode r).map (fun cs => cp :: cs)
    | none => none
termination_by l => l.length
decreasing_by
  have := utf8Step_length h
  simp only [List.length_cons]
  omega

theorem utf8Decode_nil : utf8Decode [] = some [] := by
  rw [utf8Decode.eq_def]

theorem utf8Decode_cons {b1 : Nat} {rest r : List Nat} {cp : Nat}
    (h : utf8Step b1 rest = some (cp, r)) :
    utf8Decode (b1 :: rest) = (utf8Decode r).map (fun cs => cp :: cs) := by
  rw [utf8Decode.eq_def]
  (repeat' split) <;> simp_all

/-- Decoding inverts encoding on sequences of Unicode code points. -/
theorem utf8_decode_encode : ∀ cps : List Nat, (∀ c ∈ cps, c < 1114112) →
    utf8Decode (utf8Encode cps) = some cps := by
  intro cps
  induction cps with
  | nil =>
    intro _
    rw [show utf8Encode [] = ([] : List Nat) from rfl, utf8Decode_nil]
  | cons c rest ih =>
    intro h
    have hc : c < 1114112 := h c (by simp)
    have hrest : ∀ x ∈ rest, x < 1114112 := by
      intro x hx
      exact h x (by simp [hx])
    rcases Nat.lt_or_ge c 128 with h1 | h1
    · rw [utf8Encode, utf8EncodeCp, if_pos h1]
      rw [show ([c] ++ utf8Encode rest) = c :: utf8Encode rest from rfl]
      have hs : utf8Step c (utf8Encode rest) = some (c, utf8Encode rest) := by
        simp [utf8Step, h1]
      rw [utf8Decode_cons hs, ih hrest]
      rfl
    · rcases Nat.lt_or_ge c 2048 with h2 | h2
      · rw [utf8Encode, utf8EncodeCp, if_neg (by omega), if_pos h2]
        rw [show ([192 + c / 64, 128 + c % 64] ++ utf8Encode rest) =
          (192 + c / 64) :: (128 + c % 64) :: utf8Encode rest from rfl]
        have hs : utf8Step (192 + c / 64) ((128 + c % 64) :: utf8Encode rest) =
            some (c, utf8Encode rest) := by
          simp only [utf8Step]
          rw [if_neg (by omega), if_neg (by omega), if_pos (by omega)]
          rw [if_pos ⟨by omega, by omega⟩]
          have e : (192 + c / 64 - 192) * 64 + (128 + c % 64 - 128) = c := by
            omega
          rw [e]
        rw [utf8Decode_cons hs, ih hrest]
        rfl
      · rcases Nat.lt_or_ge c 65536 with h3 | h3
        · rw [utf8Encode, utf8EncodeCp, if_neg (by omega), if_neg (by omega),
            if_pos h3]
          rw [show ([224 + c / 4096, 128 + c / 64 % 64, 128 + c % 64] ++
            utf8Encode rest) = (224 + c / 4096) :: (128 + c / 64 % 64) ::
            (128 + c % 64) :: utf8Encode rest from rfl]
          have hs : utf8Step (224 + c / 4096) ((128 + c / 64 % 64) ::
              (128 + c % 64) :: utf8Encode rest) =
              some (c, utf8Encode rest) := by
            simp only [utf8Step]
            rw [if_neg (by omega), if_neg (by omega), if_neg (by omega),
              if_pos (by omega)]
            rw [if_pos ⟨⟨by omega, by omega⟩, by omega, by omega⟩]
            have e : (224 + c / 4096 - 224) * 4096 +
                (128 + c / 64 % 64 - 128) * 64 + (128 + c % 64 - 128) = c := by
              omega
            rw [e]
          rw [utf8Decode_cons hs, ih hrest]
          rfl
        · rw [utf8Encode, utf8EncodeCp, if_neg (by omega), if_neg (by omega),
            if_neg (by omega)]
          rw [show ([240 + c / 262144, 128 + c / 4096 % 64, 128 + c / 64 % 64,
            128 + c % 64] ++ utf8Encode rest) = (240 + c / 262144) ::
            (128 + c / 4096 % 64) :: (128 + c / 64 % 64) ::
            (128 + c % 64) :: utf8Encode rest from rfl]
          have hs : utf8Step (240 + c / 262144) ((128 + c / 4096 % 64) ::
              (128 + c / 64 % 64) :: (128 + c % 64) :: utf8Encode rest) =
              some (c, utf8Encode rest) := by
            simp only [utf8Step]
            rw [if_neg (by omega), if_neg (by omega), if_neg (by omega),
              if_neg (by omega), if_pos (by omega)]
            rw [if_pos ⟨⟨by omega, by omega⟩, ⟨by omega, by omega⟩,
              by omega, by omega⟩]
            have e : (240 + c / 262144 - 240) * 262144 +
                (128 + c / 4096 % 64 - 128) * 4096 +
                (128 + c / 64 % 64 - 128) * 64 + (128 + c % 64 - 128) = c := by
              omega
            rw [e]
          rw [utf8Decode_cons hs, ih hrest]
          rfl

/-- A scalar value round-trips through `Char.ofNat` after `Char.toNat`. -/
theorem char_ofNat_toNat (c : Char) : Char.ofNat c.toNat = c := by
  have h : c.toNat.isValidChar := by
    have := c.valid
    simpa [Char.toNat, UInt32.isValidChar] using this
  rw [Char.ofNat, dif_pos h]
  apply Char.eq_of_val_eq
  simp only [Char.ofNatAux, Char.toNat, UInt32.ofNat']
  apply UInt32.eq_of_toBitVec_eq
  apply BitVec.eq_of_toNat_eq
  simp only [BitVec.toNat_ofNatLt]
  rfl

/-- Every `Char` is a code point below 0x110000. -/
theorem char_toNat_lt (c : Char) : c.toNat < 1114112 := by
  have h := c.valid
  have e : c.toNat = c.val.toNat := rfl
  rcases h with h | h <;> (rw [e]; omega)

/-- UTF-8 bytes of a string, as `fs.writeFile(path, string)` stores them. -/
def stringUtf8Bytes (s : String) : List Nat :=
  utf8Encode (s.data.map Char.toNat)

/-- String recovered from a byte sequence by `Buffer#toString("utf8")`.
Exact on valid UTF-8; ill-formed input (where Node would substitute U+FFFD
characters) is collapsed to a single U+FFFD here, and no claim exercises it. -/
def bufferToUtf8String (bs : List Nat) : String :=
  match utf8Decode bs with
  | some cps => String.mk (cps.map Char.ofNat)
  | none => String.mk [Char.ofNat 65533]

/-- A string survives UTF-8 encoding followed by decoding unchanged. -/
theorem bufferToUtf8String_stringUtf8Bytes (s : String) :
    bufferToUtf8String (stringUtf8Bytes s) = s := by
  rw [bufferToUtf8String, stringUtf8Bytes]
  rw [utf8_decode_encode (s.data.map Char.toNat) (by
    intro x hx
    rcases List.mem_map.mp hx with ⟨c, _, rfl⟩
    exact char_toNat_lt c)]
  show String.mk ((s.data.map Char.toNat).map Char.ofNat) = s
  rw [List.map_map]
  have e : (Char.ofNat ∘ Char.toNat) = id := by
    funext c
    exact char_ofNat_toNat c
  rw [e, List.map_id]

/-! ### Transport model and shared app state -/

/-- Result object of node-ssh `execCommand`: captured stdout, stderr and the
command's exit code. -/
structure ExecResult where
  stdout : String
  stderr : String
  code : Int
deriving Repr, DecidableEq

/-- The connection options object a block passes to `ssh.connect`.  Every
block builds the object literal `{host, username, port, privateKey}`
(executeCommand.ts lines 65-70, files.ts lines 92-97, 228-233 and 401-406,
hostMetadata.ts lines 86-91).  `expectedHostKey` models the host-verification
option of the underlying ssh2 connect config (a `hostVerifier` reduced to the
key it accepts); it defaults to absent and no block ever sets it. -/
structure ConnectOptions where
  host : String
  username : String
  port : Nat
  privateKey : String
  expectedHostKey : Option String := none
deriving Repr, DecidableEq

/-- The remote endpoint as the transport sees it: whether TCP connects, the
host key the server presents, and which (username, privateKey) pairs it
authenticates. -/
structure SSHServer where
  reachable : Bool
  presentedHostKey : String
  acceptedLogins : List (String × String)
deriving Repr, DecidableEq

/-- Models node-ssh `connect`: fails on unreachability; when the options
carry a host-verification key, ssh2 checks the presented host key before
authentication completes; with no verifier configured the host key is
accepted unconditionally; then key authentication runs. -/
def nodeSSHConnect (opts : ConnectOptions) (server : SSHServer) :
    Except String Unit :=
  if ¬ server.reachable then Except.error "connect ECONNREFUSED"
  else
    match opts.expectedHostKey with
    | some k =>
      if server.presentedHostKey = k then
        if (opts.username, opts.privateKey) ∈ server.acceptedLogins then
          Except.ok ()
        else Except.error "All configured authentication methods failed"
      else Except.error "Host key verification failed"
    | none =>
      if (opts.username, opts.privateKey) ∈ server.acceptedLogins then
        Except.ok ()
      else Except.error "All configured authentication methods failed"

/-- Application-level configuration declared by defineApp: the required
private key, the optional default username, the optional default port and
the optional known-hosts object mapping hostnames to public keys. -/
structure AppConfig where
  privateKey : Option String
  username : Option String
  port : Nat := 22
  knownHosts : List (String × String)
deriving Repr, DecidableEq

/-- An observable action performed by a block: network steps, local staging
file operations, and the `ssh.dispose()` call. -/
inductive BlockAction where
  | connect (opts : ConnectOptions)
  | execCommand (cmd : String) (cwd : Option String)
  | putFile (src dst : String)
  | getFile (dst src : String)
  | writeLocal (path : String)
  | unlinkLocal (path : String)
  | dispose
deriving Repr, DecidableEq

/-- Typed failure of an operation: `config` for the errors a block throws
before touching the network (the spec's ConfigurationFault), `transport` for
rejected awaits on connect, exec or transfer calls. -/
inductive OpError where
  | config (msg : String)
  | transport (msg : String)
deriving Repr, DecidableEq

/-- File contents visible to an operation: the local staging directory and
the remote host's file system, each a path-to-bytes map. -/
structure World where
  localFS : List (String × List Nat)
  remoteFS : List (String × List Nat)
deriving Repr, DecidableEq

/-- Lookup in a path-to-bytes map. -/
def readFileBytes (fs : List (String × List Nat)) (p : String) :
    Option (List Nat) :=
  match fs.find? (fun e => e.1 = p) with
  | some e => some e.2
  | none => none

/-- Store a file, shadowing any previous content at the path. -/
def storeFile (fs : List (String × List Nat)) (p : String) (bs : List Nat) :
    List (String × List Nat) :=
  (p, bs) :: fs

/-- Delete a file. -/
def removeFile (fs : List (String × List Nat)) (p : String) :
    List (String × List Nat) :=
  fs.filter (fun e => ¬ e.1 = p)

theorem readFileBytes_store_same (fs : List (String × List Nat)) (p : String)
    (bs : List Nat) : readFileBytes (storeFile fs p bs) p = some bs := by
  simp [readFileBytes, storeFile, List.find?_cons_of_pos]

theorem readFileBytes_remove_same (fs : List (String × List Nat))
    (p : String) : readFileBytes (removeFile fs p) p = none := by
  induction fs with
  | nil => rfl
  | cons e rest ih =>
    by_cases h : e.1 = p
    · simpa [readFileBytes, removeFile, h] using ih
    · simpa [readFileBytes, removeFile, List.find?_cons_of_neg, h] using ih

instance {ε α : Type} [DecidableEq ε] [DecidableEq α] :
    DecidableEq (Except ε α) := fun a b =>
  match a, b with
  | Except.ok x, Except.ok y =>
    if h : x = y then isTrue (by rw [h]) else isFalse (by simp [h])
  | Except.error x, Except.error y =>
    if h : x = y then isTrue (by rw [h]) else isFalse (by simp [h])
  | Except.ok _, Except.error _ => isFalse (by simp)
  | Except.error _, Except.ok _ => isFalse (by simp)

/-! ### Execute Command (src/blocks/executeCommand.ts) -/

/-- Input config of the Execute Command block. -/
structure CommandInput where
  host : String
  port : Nat
  command : String
  username : Option String
  workingDirectory : Option String
deriving Repr, DecidableEq

/-- Environment responses for one Execute Command run: the server the
connect call reaches, the outcome the awaited `execCommand` resolves to,
and the wall-clock milliseconds each awaited step consumes. -/
structure CommandWire where
  server : SSHServer
  connectMillis : Nat
  exec : Except String ExecResult
  execMillis : Nat
deriving Repr, DecidableEq

/-- Event payload emitted by the Execute Command and Execute Script blocks. -/
structure CommandOutput where
  stdout : String
  stderr : String
  exitCode : Int
  duration : Nat
deriving Repr, DecidableEq

/-- The object literal passed to `ssh.connect` in executeCommand.ts
lines 65-70: host, resolved username, port and private key, nothing else. -/
def executeCommandConnectOptions (app : AppConfig) (inp : CommandInput) :
    ConnectOptions :=
  { host := inp.host
    username := (jsOrStr inp.username app.username).getD ""
    port := inp.port
    privateKey := app.privateKey.getD "" }

/-- Embedding of the Execute Command onEvent body: config checks, connect,
execCommand, emit, with `ssh.dispose()` in the finally block. -/
def executeCommandRun (app : AppConfig) (inp : CommandInput)
    (wire : CommandWire) : Except OpError CommandOutput × List BlockAction :=
  if ¬ jsTruthy app.privateKey then
    (Except.error (OpError.config "SSH private key not configured in the app."),
      [])
  else if ¬ jsTruthy (jsOrStr inp.username app.username) then
    (Except.error (OpError.config
      "Username must be specified either in app config or input config."), [])
  else
    let opts := executeCommandConnectOptions app inp
    match nodeSSHConnect opts wire.server with
    | Except.error e =>
      (Except.error (OpError.transport e),
        [BlockAction.connect opts, BlockAction.dispose])
    | Except.ok _ =>
      match wire.exec with
      | Except.error e =>
        (Except.error (OpError.transport e),
          [BlockAction.connect opts,
            BlockAction.execCommand inp.command inp.workingDirectory,
            BlockAction.dispose])
      | Except.ok r =>
        (Except.ok
          { stdout := r.stdout
            stderr := r.stderr
            exitCode := r.code
            duration := wire.connectMillis + wire.execMillis },
          [BlockAction.connect opts,
            BlockAction.execCommand inp.command inp.workingDirectory,
            BlockAction.dispose])

/-! ### Execute Script (src/blocks/files.ts, default export) -/

/-- Input config of the Execute Script block. -/
structure ScriptInput where
  host : String
  port : Nat
  script : String
  username : Option String
  interpreter : Option String
  workingDirectory : Option String
deriving Repr, DecidableEq

/-- Environment responses for one Execute Script run: `timestamp` and
`random` are the values of `Date.now()` and the random suffix used in the
temp file name; each awaited `execCommand` resolves per the corresponding
field, and each `...Millis` is that step's wall-clock cost.  `rmExec` is the
outcome of the cleanup command in the finally block. -/
structure ScriptWire where
  server : SSHServer
  connectMillis : Nat
  timestamp : Nat
  random : String
  stageExec : Except String ExecResult
  stageMillis : Nat
  chmodExec : Except String ExecResult
  chmodMillis : Nat
  runExec : Except String ExecResult
  runMillis : Nat
  rmExec : Except String ExecResult
deriving Repr, DecidableEq

/-- The temp file name built in files.ts line 398. -/
def scriptTempFile (wire : ScriptWire) : String :=
  "/tmp/spacelift_script_" ++ toString wire.timestamp ++ "_" ++
    wire.random ++ ".sh"

/-- The heredoc staging command built in files.ts lines 409-411. -/
def createScriptCommand (tempFile script : String) : String :=
  "cat > \"" ++ tempFile ++ "\" << 'SPACELIFT_SCRIPT_EOF'\n" ++ script ++
    "\nSPACELIFT_SCRIPT_EOF"

/-- The chmod command of files.ts line 416. -/
def chmodXCommand (tempFile : String) : String :=
  "chmod +x \"" ++ tempFile ++ "\""

/-- The interpreter invocation of files.ts line 419. -/
def interpreterCommand (interp tempFile : String) : String :=
  interp ++ " \"" ++ tempFile ++ "\""

/-- The cleanup command of files.ts line 435. -/
def rmTempCommand (tempFile : String) : String :=
  "rm -f \"" ++ tempFile ++ "\""

/-- The object literal passed to `ssh.connect` in files.ts lines 401-406. -/
def executeScriptConnectOptions (app : AppConfig) (inp : ScriptInput) :
    ConnectOptions :=
  { host := inp.host
    username := (jsOrStr inp.username app.username).getD ""
    port := inp.port
    privateKey := app.privateKey.getD "" }

/-- Embedding of the Execute Script onEvent body: config checks, temp name
generation, connect, heredoc staging, chmod +x, interpreter invocation,
emit; the finally block attempts the remote `rm -f` (its outcome is ignored)
and then disposes.  `startTime` is taken before the connect call, so the
emitted duration spans connect, staging, chmod and the interpreter step. -/
def executeScriptRun (app : AppConfig) (inp : ScriptInput)
    (wire : ScriptWire) : Except OpError CommandOutput × List BlockAction :=
  if ¬ jsTruthy app.privateKey then
    (Except.error (OpError.config "SSH private key not configured in the app."),
      [])
  else if ¬ jsTruthy (jsOrStr inp.username app.username) then
    (Except.error (OpError.config
      "Username must be specified either in app config or input config."), [])
  else
    let opts := executeScriptConnectOptions app inp
    let tempFile := scriptTempFile wire
    match nodeSSHConnect opts wire.server with
    | Except.error e =>
      (Except.error (OpError.transport e),
        [BlockAction.connect opts, BlockAction.dispose])
    | Except.ok _ =>
      match wire.stageExec with
      | Except.error e =>
        (Except.error (OpError.transport e),
          [BlockAction.connect opts,
            BlockAction.execCommand (createScriptCommand tempFile inp.script) none,
            BlockAction.execCommand (rmTempCommand tempFile) none,
            BlockAction.dispose])
      | Except.ok _ =>
        match wire.chmodExec with
        | Except.error e =>
          (Except.error (OpError.transport e),
            [BlockAction.connect opts,
              BlockAction.execCommand (createScriptCommand tempFile inp.script) none,
              BlockAction.execCommand (chmodXCommand tempFile) none,
              BlockAction.execCommand (rmTempCommand tempFile) none,
              BlockAction.dispose])
        | Except.ok _ =>
          match wire.runExec with
          | Except.error e =>
            (Except.error (OpError.transport e),
              [BlockAction.connect opts,
                BlockAction.execCommand (createScriptCommand tempFile inp.script) none,
                BlockAction.execCommand (chmodXCommand tempFile) none,
                BlockAction.execCommand
                  (interpreterCommand (jsOrDefault inp.interpreter "sh") tempFile)
                  inp.workingDirectory,
                BlockAction.execCommand (rmTempCommand tempFile) none,
                BlockAction.dispose])
          | Except.ok r =>
            (Except.ok
              { stdout := r.stdout
                stderr := r.stderr
                exitCode := r.code
                duration := wire.connectMillis + wire.stageMillis +
                  wire.chmodMillis + wire.runMillis },
              [BlockAction.connect opts,
                BlockAction.execCommand (createScriptCommand tempFile inp.script) none,
                BlockAction.execCommand (chmodXCommand tempFile) none,
                BlockAction.execCommand
                  (interpreterCommand (jsOrDefault inp.interpreter "sh") tempFile)
                  inp.workingDirectory,
                BlockAction.execCommand (rmTempCommand tempFile) none,
                BlockAction.dispose])

/-! ### Host Metadata (src/blocks/hostMetadata.ts) -/

/-- Block config of the Host Metadata block. -/
structure MetadataInput where
  host : String
  port : Nat
  username : Option String
deriving Repr, DecidableEq

/-- Environment responses for one Host Metadata sync: the server and the
outcome of each awaited `execCommand` probe, in source order. -/
structure MetadataWire where
  server : SSHServer
  hostnameExec : Except String ExecResult
  osTypeExec : Except String ExecResult
  osReleaseExec : Except String ExecResult
  archExec : Except String ExecResult
  uptimeExec : Except String ExecResult
  loadExec : Except String ExecResult
  memExec : Except String ExecResult
deriving Repr, DecidableEq

/-- Load average record with 1, 5 and 15 minute values. -/
structure LoadAverage where
  one : Rat
  five : Rat
  fifteen : Rat
deriving Repr, DecidableEq

/-- The signal updates returned by a successful sync. -/
structure MetadataSignals where
  hostname : String
  osType : String
  osRelease : String
  architecture : String
  uptime : Rat
  loadAverage : LoadAverage
  memoryTotal : Nat
  memoryFree : Nat
deriving Repr, DecidableEq

/-- Result of the onSync callback: `ready` with signal updates, or `failed`
with a status description. -/
inductive SyncResult where
  | failed (description : String)
  | ready (signals : MetadataSignals)
deriving Repr, DecidableEq

/-- The `r.code === 0 ? r.stdout.trim() : ""` pattern of
hostMetadata.ts lines 179-183. -/
def trimmedIfOk (r : ExecResult) : String :=
  if r.code = 0 then jsTrim r.stdout else ""

/-- The osType expression of hostMetadata.ts line 180 (trim then lower). -/
def osTypeOf (r : ExecResult) : String :=
  if r.code = 0 then jsToLower (jsTrim r.stdout) else ""

/-- The JavaScript expression `loads[i] || 0` where `loads[i]` may be
missing or `NaN` (both falsy, like a parsed `0`). -/
def jsNumOr0 (x : Option (Option Rat)) : Rat :=
  match x with
  | some (some v) => v
  | _ => 0

/-- The load-average probe body of hostMetadata.ts lines 103-120: a local
try/catch around the exec, then `code === 0 && stdout` guard, split on
`[, ]+`, parseFloat, and zero-defaulting; every failure leaves all three
values zero. -/
def loadAverageOf (res : Except String ExecResult) : LoadAverage :=
  match res with
  | Except.error _ => { one := 0, five := 0, fifteen := 0 }
  | Except.ok r =>
    if r.code = 0 ∧ r.stdout ≠ "" then
      let loads := (splitCommaSpace (jsTrim r.stdout)).map jsParseFloat
      if 3 ≤ loads.length then
        { one := jsNumOr0 (loads.get? 0)
          five := jsNumOr0 (loads.get? 1)
          fifteen := jsNumOr0 (loads.get? 2) }
      else { one := 0, five := 0, fifteen := 0 }
    else { one := 0, five := 0, fifteen := 0 }

/-- A whitespace character as matched by `\s` in the meminfo regexes;
`/proc/meminfo` uses plain spaces. -/
def isWsChar (c : Char) : Bool := c = ' ' ∨ c = '\t'

/-- The `\s+(\d+)\s+kB` tail of the meminfo regexes, applied to the
characters following the label and colon. -/
def memValueAfterLabel (cs : List Char) : Option Nat :=
  let ws1 := cs.takeWhile isWsChar
  let r1 := cs.dropWhile isWsChar
  let ds := r1.takeWhile Char.isDigit
  let r2 := r1.dropWhile Char.isDigit
  let ws2 := r2.takeWhile isWsChar
  let r3 := r2.dropWhile isWsChar
  if ws1 ≠ [] ∧ ds ≠ [] ∧ ws2 ≠ [] ∧ r3.take 2 = ['k', 'B'] then
    some (digitsToNat ds)
  else none

/-- Models the regex match `/Label:\s+(\d+)\s+kB/` over the line-based
`/proc/meminfo` output searched in hostMetadata.ts lines 131-137. -/
def memMatch (label : String) (s : String) : Option Nat :=
  (splitOnChar '\n' s).findSome? (fun line =>
    let pre := (label ++ ":").data
    if line.data.take pre.length = pre then
      memValueAfterLabel (line.data.drop pre.length)
    else none)

/-- The memoryTotal computation of hostMetadata.ts lines 123-150: local
try/catch, `code === 0 && stdout` guard, MemTotal match, kB-to-bytes. -/
def memoryTotalOf (res : Except String ExecResult) : Nat :=
  match res with
  | Except.error _ => 0
  | Except.ok r =>
    if r.code = 0 ∧ r.stdout ≠ "" then
      match memMatch "MemTotal" r.stdout with
      | some kb => kb * 1024
      | none => 0
    else 0

/-- The memoryFree computation of hostMetadata.ts lines 139-146: prefer
the MemAvailable match over the MemFree match, kB-to-bytes, zero default. -/
def memoryFreeOf (res : Except String ExecResult) : Nat :=
  match res with
  | Except.error _ => 0
  | Except.ok r =>
    if r.code = 0 ∧ r.stdout ≠ "" then
      match memMatch "MemAvailable" r.stdout with
      | some kb => kb * 1024
      | none =>
        match memMatch "MemFree" r.stdout with
        | some kb => kb * 1024
        | none => 0
    else 0

/-- Models the regex match `/^(\d+\.\d+)/` followed by `parseFloat` on the
match (hostMetadata.ts lines 157-159): the leading `digits.digits` value. -/
def leadingDecimalMatch (s : String) : Option Rat :=
  let ds := s.data.takeWhile Char.isDigit
  let r := s.data.dropWhile Char.isDigit
  match ds, r with
  | [], _ => none
  | _, '.' :: r2 =>
    let fs := r2.takeWhile Char.isDigit
    if fs = [] then none
    else some ((digitsToNat ds : Rat) + (digitsToNat fs : Rat) / (10 ^ fs.length))
  | _, _ => none

/-- Scan for the first position where `up` is followed by whitespace, and
return the characters after that whitespace run, as the regex engine does
when matching `/up\s+.../` (hostMetadata.ts lines 162-164). -/
def findAfterUp : List Char → Option (List Char)
  | 'u' :: 'p' :: c :: rest =>
    if c = ' ' then some (rest.dropWhile (fun d => d = ' '))
    else findAfterUp ('p' :: c :: rest)
  | _ :: rest => findAfterUp rest
  | [] => none
termination_by l => l.length
decreasing_by
  all_goals simp only [List.length_cons]
  all_goals omega

/-- The `(\d+):(\d+)` group of the uptime fallback regex: hours and
minutes, both zero when the group does not match. -/
def parseHourMin (cs : List Char) : Nat × Nat :=
  let hs := cs.takeWhile Char.isDigit
  let r := cs.dropWhile Char.isDigit
  if hs ≠ [] ∧ r.head? = some ':' then
    let ms := (r.drop 1).takeWhile Char.isDigit
    if ms ≠ [] then (digitsToNat hs, digitsToNat ms) else (0, 0)
  else (0, 0)

/-- The optional `(\d+)\s+days?,\s*` and `(\d+):(\d+)` groups of the uptime
fallback regex `/up\s+(?:(\d+)\s+days?,\s*)?(?:(\d+):(\d+),?)?/`, applied
after the `up` and its whitespace: days, hours and minutes, each zero when
its group does not participate in the match. -/
def parseAfterUp (cs : List Char) : Nat × Nat × Nat :=
  let ds := cs.takeWhile Char.isDigit
  let r := cs.dropWhile Char.isDigit
  let dayParsed :=
    if ds ≠ [] ∧ r.takeWhile (fun c => c = ' ') ≠ [] then
      let r1 := r.dropWhile (fun c => c = ' ')
      if r1.take 3 = ['d', 'a', 'y'] then
        let r2 := r1.drop 3
        let r3 := if r2.head? = some 's' then r2.drop 1 else r2
        if r3.head? = some ',' then
          some (digitsToNat ds, (r3.drop 1).dropWhile (fun c => c = ' '))
        else none
      else none
    else none
  match dayParsed with
  | some (days, cs1) =>
    let hm := parseHourMin cs1
    (days, hm.1, hm.2)
  | none =>
    let hm := parseHourMin cs
    (0, hm.1, hm.2)

/-- The uptime parsing of hostMetadata.ts lines 152-175: under the
`code === 0 && stdout` guard, prefer the `/proc/uptime` leading decimal,
else fall back to the `up D days, HH:MM` pattern, else stay zero. -/
def uptimeSecondsOf (r : ExecResult) : Rat :=
  if r.code = 0 ∧ r.stdout ≠ "" then
    match leadingDecimalMatch r.stdout with
    | some q => q
    | none =>
      match findAfterUp r.stdout.data with
      | some rest =>
        let dhm := parseAfterUp rest
        ((dhm.1 * 86400 + dhm.2.1 * 3600 + dhm.2.2 * 60 : Nat) : Rat)
      | none => 0
  else 0

/-- The load-average probe command string of hostMetadata.ts line 106. -/
def loadProbeCommand : String :=
  "cat /proc/loadavg 2>/dev/null || uptime | grep -o 'load average[s]*: [0-9.]*[, ]*[0-9.]*[, ]*[0-9.]*' | sed 's/load average[s]*: //'"

/-- The memory probe command string of hostMetadata.ts line 127. -/
def memProbeCommand : String := "cat /proc/meminfo 2>/dev/null || vm_stat"

/-- The uptime probe command string of hostMetadata.ts line 99. -/
def uptimeProbeCommand : String := "cat /proc/uptime 2>/dev/null || uptime"

/-- The object literal passed to `ssh.connect` in hostMetadata.ts
lines 86-91. -/
def hostMetadataConnectOptions (app : AppConfig) (inp : MetadataInput) :
    ConnectOptions :=
  { host := inp.host
    username := (jsOrStr inp.username app.username).getD ""
    port := inp.port
    privateKey := app.privateKey.getD "" }

/-- Embedding of the Host Metadata onSync body.  Config problems return a
failed status before any connection.  After connecting, the hostname, uname
and uptime probes are awaited without a local catch, so a rejection there
reaches the outer catch and fails the sync; the load-average and memory
probes are awaited inside local try/catch blocks, so their rejection only
leaves the zero defaults.  `ssh.dispose()` runs in the finally block. -/
def hostMetadataRun (app : AppConfig) (inp : MetadataInput)
    (wire : MetadataWire) : SyncResult × List BlockAction :=
  if ¬ jsTruthy app.privateKey then
    (SyncResult.failed "SSH private key not configured in the app.", [])
  else if ¬ jsTruthy (jsOrStr inp.username app.username) then
    (SyncResult.failed
      "Username must be specified either in app config or block config.", [])
  else
    let opts := hostMetadataConnectOptions app inp
    match nodeSSHConnect opts wire.server with
    | Except.error e =>
      (SyncResult.failed ("Failed to connect to host: " ++ e),
        [BlockAction.connect opts, BlockAction.dispose])
    | Except.ok _ =>
      match wire.hostnameExec with
      | Except.error e =>
        (SyncResult.failed ("Failed to connect to host: " ++ e),
          [BlockAction.connect opts, BlockAction.execCommand "hostname" none,
            BlockAction.dispose])
      | Except.ok rHostname =>
        match wire.osTypeExec with
        | Except.error e =>
          (SyncResult.failed ("Failed to connect to host: " ++ e),
            [BlockAction.connect opts, BlockAction.execCommand "hostname" none,
              BlockAction.execCommand "uname -s" none, BlockAction.dispose])
        | Except.ok rOsType =>
          match wire.osReleaseExec with
          | Except.error e =>
            (SyncResult.failed ("Failed to connect to host: " ++ e),
              [BlockAction.connect opts, BlockAction.execCommand "hostname" none,
                BlockAction.execCommand "uname -s" none,
                BlockAction.execCommand "uname -r" none, BlockAction.dispose])
          | Except.ok rOsRelease =>
            match wire.archExec with
            | Except.error e =>
              (SyncResult.failed ("Failed to connect to host: " ++ e),
                [BlockAction.connect opts,
                  BlockAction.execCommand "hostname" none,
                  BlockAction.execCommand "uname -s" none,
                  BlockAction.execCommand "uname -r" none,
                  BlockAction.execCommand "uname -m" none,
                  BlockAction.dispose])
            | Except.ok rArch =>
              match wire.uptimeExec with
              | Except.error e =>
                (SyncResult.failed ("Failed to connect to host: " ++ e),
                  [BlockAction.connect opts,
                    BlockAction.execCommand "hostname" none,
                    BlockAction.execCommand "uname -s" none,
                    BlockAction.execCommand "uname -r" none,
                    BlockAction.execCommand "uname -m" none,
                    BlockAction.execCommand uptimeProbeCommand none,
                    BlockAction.dispose])
              | Except.ok rUptime =>
                (SyncResult.ready
                  { hostname := trimmedIfOk rHostname
                    osType := osTypeOf rOsType
                    osRelease := trimmedIfOk rOsRelease
                    architecture := trimmedIfOk rArch
                    uptime := uptimeSecondsOf rUptime
                    loadAverage := loadAverageOf wire.loadExec
                    memoryTotal := memoryTotalOf wire.memExec
                    memoryFree := memoryFreeOf wire.memExec },
                  [BlockAction.connect opts,
                    BlockAction.execCommand "hostname" none,
                    BlockAction.execCommand "uname -s" none,
                    BlockAction.execCommand "uname -r" none,
                    BlockAction.execCommand "uname -m" none,
                    BlockAction.execCommand uptimeProbeCommand none,
                    BlockAction.execCommand loadProbeCommand none,
                    BlockAction.execCommand memProbeCommand none,
                    BlockAction.dispose])

/-! ### Upload File (src/blocks/files.ts, uploadFile) -/

/-- Input config of the Upload File block. -/
structure UploadInput where
  host : String
  port : Nat
  content : String
  destinationPath : String
  username : Option String
  encoding : String
  permissions : Option String
deriving Repr, DecidableEq

/-- Environment responses for one Upload File run: the server, the
temp-name ingredients, and the outcome of each awaited step
(local write, putFile, chmod exec, local stat, finally unlink). -/
structure UploadWire where
  server : SSHServer
  timestamp : Nat
  random : String
  writeResult : Except String Unit
  putResult : Except String Unit
  chmodExec : Except String ExecResult
  statResult : Except String Unit
  unlinkResult : Except String Unit
deriving Repr, DecidableEq

/-- Event payload emitted by the Upload File block. -/
structure UploadOutput where
  path : String
  size : Nat
deriving Repr, DecidableEq

/-- The schema default of the Upload File `encoding` input
(files.ts line 56). -/
def uploadFileEncodingDefault : String := "text"

/-- The local temp path built in files.ts lines 100-104
(`os.tmpdir()` modelled as `/tmp`). -/
def uploadTempPath (wire : UploadWire) : String :=
  "/tmp/ssh-upload-" ++ toString wire.timestamp ++ "-" ++ wire.random

/-- The bytes of `Buffer.from(content, "base64")`; Node is lenient about
non-canonical input, which no claim exercises, so only canonical base64 is
decoded here. -/
def bufferFromBase64 (s : String) : List Nat :=
  (base64Decode s.data).getD []

/-- The `fileContent` expression of files.ts lines 107-108 followed by
`fs.writeFile`: base64 decodes to raw bytes, text is written as the
string's UTF-8 bytes. -/
def uploadFileContent (encoding content : String) : List Nat :=
  if encoding = "base64" then bufferFromBase64 content
  else stringUtf8Bytes content

/-- The chmod command of files.ts line 116. -/
def chmodCommand (permissions destinationPath : String) : String :=
  "chmod " ++ permissions ++ " \"" ++ destinationPath ++ "\""

/-- The object literal passed to `ssh.connect` in files.ts lines 92-97. -/
def uploadFileConnectOptions (app : AppConfig) (inp : UploadInput) :
    ConnectOptions :=
  { host := inp.host
    username := (jsOrStr inp.username app.username).getD ""
    port := inp.port
    privateKey := app.privateKey.getD "" }

/-- Effect of the finally-block `fs.unlink` attempt (files.ts lines
129-135): the temp file disappears when the unlink succeeds, and a failure
is swallowed, leaving the world unchanged. -/
def unlinkWorld (res : Except String Unit) (tmp : String) (w : World) :
    World :=
  match res with
  | Except.ok _ => { w with localFS := removeFile w.localFS tmp }
  | Except.error _ => w

/-- Embedding of the Upload File onEvent body: config checks, connect,
temp-file write of the decoded content, putFile, optional chmod, local
stat for the size, emit; the finally block disposes the session and then
attempts to unlink the temp file, swallowing unlink errors. -/
def uploadFileRun (app : AppConfig) (inp : UploadInput) (wire : UploadWire)
    (w : World) : Except OpError UploadOutput × List BlockAction × World :=
  if ¬ jsTruthy app.privateKey then
    (Except.error (OpError.config "SSH private key not configured in the app."),
      [], w)
  else if ¬ jsTruthy (jsOrStr inp.username app.username) then
    (Except.error (OpError.config
      "Username must be specified either in app config or input config."),
      [], w)
  else
    let opts := uploadFileConnectOptions app inp
    match nodeSSHConnect opts wire.server with
    | Except.error e =>
      (Except.error (OpError.transport e),
        [BlockAction.connect opts, BlockAction.dispose], w)
    | Except.ok _ =>
      let tmp := uploadTempPath wire
      let bytes := uploadFileContent inp.encoding inp.content
      match wire.writeResult with
      | Except.error e =>
        (Except.error (OpError.transport e),
          [BlockAction.connect opts, BlockAction.writeLocal tmp,
            BlockAction.dispose, BlockAction.unlinkLocal tmp],
          unlinkWorld wire.unlinkResult tmp w)
      | Except.ok _ =>
        let w1 := { w with localFS := storeFile w.localFS tmp bytes }
        match wire.putResult with
        | Except.error e =>
          (Except.error (OpError.transport e),
            [BlockAction.connect opts, BlockAction.writeLocal tmp,
              BlockAction.putFile tmp inp.destinationPath,
              BlockAction.dispose, BlockAction.unlinkLocal tmp],
            unlinkWorld wire.unlinkResult tmp w1)
        | Except.ok _ =>
          match readFileBytes w1.localFS tmp with
          | none =>
            (Except.error (OpError.transport "ENOENT"),
              [BlockAction.connect opts, BlockAction.writeLocal tmp,
                BlockAction.putFile tmp inp.destinationPath,
                BlockAction.dispose, BlockAction.unlinkLocal tmp],
              unlinkWorld wire.unlinkResult tmp w1)
          | some lb =>
            let w2 := { w1 with
              remoteFS := storeFile w1.remoteFS inp.destinationPath lb }
            if jsTruthy inp.permissions then
              match wire.chmodExec with
              | Except.error e =>
                (Except.error (OpError.transport e),
                  [BlockAction.connect opts, BlockAction.writeLocal tmp,
                    BlockAction.putFile tmp inp.destinationPath,
                    BlockAction.execCommand
                      (chmodCommand (inp.permissions.getD "")
                        inp.destinationPath) none,
                    BlockAction.dispose, BlockAction.unlinkLocal tmp],
                  unlinkWorld wire.unlinkResult tmp w2)
              | Except.ok _ =>
                match wire.statResult with
                | Except.error e =>
                  (Except.error (OpError.transport e),
                    [BlockAction.connect opts, BlockAction.writeLocal tmp,
                      BlockAction.putFile tmp inp.destinationPath,
                      BlockAction.execCommand
                        (chmodCommand (inp.permissions.getD "")
                          inp.destinationPath) none,
                      BlockAction.dispose, BlockAction.unlinkLocal tmp],
                    unlinkWorld wire.unlinkResult tmp w2)
                | Except.ok _ =>
                  (Except.ok { path := inp.destinationPath, size := lb.length },
                    [BlockAction.connect opts, BlockAction.writeLocal tmp,
                      BlockAction.putFile tmp inp.destinationPath,
                      BlockAction.execCommand
                        (chmodCommand (inp.permissions.getD "")
                          inp.destinationPath) none,
                      BlockAction.dispose, BlockAction.unlinkLocal tmp],
                    unlinkWorld wire.unlinkResult tmp w2)
            else
              match wire.statResult with
              | Except.error e =>
                (Except.error (OpError.transport e),
                  [BlockAction.connect opts, BlockAction.writeLocal tmp,
                    BlockAction.putFile tmp inp.destinationPath,
                    BlockAction.dispose, BlockAction.unlinkLocal tmp],
                  unlinkWorld wire.unlinkResult tmp w2)
              | Except.ok _ =>
                (Except.ok { path := inp.destinationPath, size := lb.length },
                  [BlockAction.connect opts, BlockAction.writeLocal tmp,
                    BlockAction.putFile tmp inp.destinationPath,
                    BlockAction.dispose, BlockAction.unlinkLocal tmp],
                  unlinkWorld wire.unlinkResult tmp w2)

/-! ### Download File (src/blocks/files.ts, downloadFile) -/

/-- Input config of the Download File block. -/
structure DownloadInput where
  host : String
  port : Nat
  sourcePath : String
  username : Option String
  encoding : String
deriving Repr, DecidableEq

/-- Environment responses for one Download File run. -/
structure DownloadWire where
  server : SSHServer
  timestamp : Nat
  random : String
  getResult : Except String Unit
  statExec : Except String ExecResult
  unlinkResult : Except String Unit
deriving Repr, DecidableEq

/-- Event payload emitted by the Download File block. -/
structure DownloadOutput where
  content : String
  path : String
  size : Nat
  permissions : String
  modifiedTime : String
deriving Repr, DecidableEq

/-- The schema default of the Download File `encoding` input
(files.ts line 205). -/
def downloadFileEncodingDefault : String := "text"

/-- The local temp path built in files.ts lines 236-240. -/
def downloadTempPath (wire : DownloadWire) : String :=
  "/tmp/ssh-download-" ++ toString wire.timestamp ++ "-" ++ wire.random

/-- The content expression of files.ts lines 247-250: base64 renders the
bytes, text decodes them as UTF-8. -/
def downloadContentString (encoding : String) (buffer : List Nat) : String :=
  if encoding = "base64" then String.mk (base64Encode buffer)
  else bufferToUtf8String buffer

/-- The remote stat command of files.ts lines 257-259. -/
def statCommand (sourcePath : String) : String :=
  "stat -c \"%a %Y\" \"" ++ sourcePath ++ "\""

/-- The destructuring of files.ts lines 260-262: trim the stat output,
split on single spaces, take the permission token and the parsed epoch
timestamp (absent or non-numeric gives the JS `NaN`). -/
def parseStatOutput (stdout : String) : String × Option Int :=
  match splitOnChar ' ' (jsTrim stdout) with
  | p :: ts :: _ => (p, jsParseInt ts)
  | [p] => (p, none)
  | [] => ("", none)

/-- Models `Date#toISOString` on the epoch milliseconds as an injective
rendering; the calendar formatting itself is not needed by any claim. -/
def jsToISOStringModel (epochMillis : Int) : String :=
  "iso:" ++ toString epochMillis

/-- The object literal passed to `ssh.connect` in files.ts lines 228-233. -/
def downloadFileConnectOptions (app : AppConfig) (inp : DownloadInput) :
    ConnectOptions :=
  { host := inp.host
    username := (jsOrStr inp.username app.username).getD ""
    port := inp.port
    privateKey := app.privateKey.getD "" }

/-- Embedding of the Download File onEvent body: config checks, connect,
getFile into a local temp path, read and re-encode the bytes, local stat
for the size, remote stat for permissions and mtime (a missing or
non-numeric timestamp makes `new Date(NaN).toISOString()` throw), emit;
the finally block disposes and then attempts the local unlink, swallowing
unlink errors. -/
def downloadFileRun (app : AppConfig) (inp : DownloadInput)
    (wire : DownloadWire) (w : World) :
    Except OpError DownloadOutput × List BlockAction × World :=
  if ¬ jsTruthy app.privateKey then
    (Except.error (OpError.config "SSH private key not configured in the app."),
      [], w)
  else if ¬ jsTruthy (jsOrStr inp.username app.username) then
    (Except.error (OpError.config
      "Username must be specified either in app config or input config."),
      [], w)
  else
    let opts := downloadFileConnectOptions app inp
    match nodeSSHConnect opts wire.server with
    | Except.error e =>
      (Except.error (OpError.transport e),
        [BlockAction.connect opts, BlockAction.dispose], w)
    | Except.ok _ =>
      let tmp := downloadTempPath wire
      match wire.getResult with
      | Except.error e =>
        (Except.error (OpError.transport e),
          [BlockAction.connect opts, BlockAction.getFile tmp inp.sourcePath,
            BlockAction.dispose, BlockAction.unlinkLocal tmp],
          unlinkWorld wire.unlinkResult tmp w)
      | Except.ok _ =>
        match readFileBytes w.remoteFS inp.sourcePath with
        | none =>
          (Except.error (OpError.transport "No such file"),
            [BlockAction.connect opts, BlockAction.getFile tmp inp.sourcePath,
              BlockAction.dispose, BlockAction.unlinkLocal tmp],
            unlinkWorld wire.unlinkResult tmp w)
        | some bs =>
          let w1 := { w with localFS := storeFile w.localFS tmp bs }
          match readFileBytes w1.localFS tmp with
          | none =>
            (Except.error (OpError.transport "ENOENT"),
              [BlockAction.connect opts, BlockAction.getFile tmp inp.sourcePath,
                BlockAction.dispose, BlockAction.unlinkLocal tmp],
              unlinkWorld wire.unlinkResult tmp w1)
          | some buffer =>
            match wire.statExec with
            | Except.error e =>
              (Except.error (OpError.transport e),
                [BlockAction.connect opts,
                  BlockAction.getFile tmp inp.sourcePath,
                  BlockAction.execCommand (statCommand inp.sourcePath) none,
                  BlockAction.dispose, BlockAction.unlinkLocal tmp],
                unlinkWorld wire.unlinkResult tmp w1)
            | Except.ok rs =>
              match (parseStatOutput rs.stdout).2 with
              | none =>
                (Except.error (OpError.transport "Invalid time value"),
                  [BlockAction.connect opts,
                    BlockAction.getFile tmp inp.sourcePath,
                    BlockAction.execCommand (statCommand inp.sourcePath) none,
                    BlockAction.dispose, BlockAction.unlinkLocal tmp],
                  unlinkWorld wire.unlinkResult tmp w1)
              | some n =>
                (Except.ok
                  { content := downloadContentString inp.encoding buffer
                    path := inp.sourcePath
                    size := buffer.length
                    permissions := (parseStatOutput rs.stdout).1
                    modifiedTime := jsToISOStringModel (n * 1000) },
                  [BlockAction.connect opts,
                    BlockAction.getFile tmp inp.sourcePath,
                    BlockAction.execCommand (statCommand inp.sourcePath) none,
                    BlockAction.dispose, BlockAction.unlinkLocal tmp],
                  unlinkWorld wire.unlinkResult tmp w1)

/-! ### Claim theorems -/

/-- C1: the claim says a knownHosts entry that does not match the presented
host key makes the connection fail with a ConnectionFault.  In the code no
block ever reads the knownHosts registry: the options passed to
`ssh.connect` carry no host verifier, so the run result is independent of
the registry, and at the concrete failing input (registry maps the host to
`expected-key`, server presents `different-key`) Execute Command still
succeeds. -/
theorem c1_hostKey_mismatch_not_enforced :
    (∀ (app : AppConfig) (inp : CommandInput) (wire : CommandWire)
      (kh kh' : List (String × String)),
      executeCommandRun { app with knownHosts := kh } inp wire =
        executeCommandRun { app with knownHosts := kh' } inp wire) ∧
    (executeCommandConnectOptions
      { privateKey := some "KEY", username := some "root",
        knownHosts := [("h1", "expected-key")] }
      { host := "h1", port := 22, command := "id", username := none,
        workingDirectory := none }).expectedHostKey = none ∧
    (executeCommandRun
      { privateKey := some "KEY"
        username := some "root"
        knownHosts := [("h1", "expected-key")] }
      { host := "h1"
        port := 22
        command := "id"
        username := none
        workingDirectory := none }
      { server :=
          { reachable := true
            presentedHostKey := "different-key"
            acceptedLogins := [("root", "KEY")] }
        connectMillis := 1
        exec := Except.ok { stdout := "uid=0", stderr := "", code := 0 }
        execMillis := 2 }).1 =
      Except.ok
        { stdout := "uid=0", stderr := "", exitCode := 0, duration := 3 } := by
  refine ⟨fun app inp wire kh kh' => rfl, rfl, ?_⟩
  rfl

/-- C8: the claim says the Download File encoding defaults to base64; the
schema in files.ts line 205 declares `default: "text"`, and with that
default the returned content is the UTF-8 text rendering, not the base64
rendering. -/
theorem c8_download_default_encoding_is_text :
    downloadFileEncodingDefault = "text" ∧
    ¬ downloadFileEncodingDefault = "base64" ∧
    downloadContentString downloadFileEncodingDefault [104, 105] = "hi" ∧
    ¬ downloadContentString downloadFileEncodingDefault [104, 105] =
      String.mk (base64Encode [104, 105]) := by
  have hdec : downloadContentString downloadFileEncodingDefault [104, 105] =
      "hi" := by
    show bufferToUtf8String [104, 105] = "hi"
    rw [show [104, 105] = stringUtf8Bytes "hi" from rfl]
    exact bufferToUtf8String_stringUtf8Bytes "hi"
  refine ⟨rfl, by decide, hdec, ?_⟩
  rw [hdec]
  decide

/-- C10: in every block the effective username is the JavaScript
`username || defaultUsername`: the per-call username wins exactly when it
is a non-empty string, and an empty per-call string falls back to the
app-level default. -/
theorem c10_username_merge_truthiness
    (app : AppConfig) (ic : CommandInput) (is2 : ScriptInput)
    (iu : UploadInput) (idl : DownloadInput) (im : MetadataInput)
    (d : Option String) :
    (executeCommandConnectOptions app ic).username =
      (jsOrStr ic.username app.username).getD "" ∧
    (executeScriptConnectOptions app is2).username =
      (jsOrStr is2.username app.username).getD "" ∧
    (uploadFileConnectOptions app iu).username =
      (jsOrStr iu.username app.username).getD "" ∧
    (downloadFileConnectOptions app idl).username =
      (jsOrStr idl.username app.username).getD "" ∧
    (hostMetadataConnectOptions app im).username =
      (jsOrStr im.username app.username).getD "" ∧
    (∀ s : String, ¬ s = "" → jsOrStr (some s) d = some s) ∧
    jsOrStr (some "") d = d ∧
    jsOrStr none d = d := by
  refine ⟨rfl, rfl, rfl, rfl, rfl, ?_, ?_, ?_⟩
  · intro s hs
    simp [jsOrStr, jsTruthy, hs]
  · simp [jsOrStr, jsTruthy]
  · simp [jsOrStr, jsTruthy]

/-- C10 witness: at a concrete non-empty per-call username the merge picks
it over the default. -/
theorem c10_username_merge_truthiness_witness :
    jsOrStr (some "alice") (some "root") = some "alice" :=
  ((c10_username_merge_truthiness
    { privateKey := some "K", username := some "root", knownHosts := [] }
    { host := "h", port := 22, command := "id", username := some "alice",
      workingDirectory := none }
    { host := "h", port := 22, script := "", username := none,
      interpreter := none, workingDirectory := none }
    { host := "h", port := 22, content := "", destinationPath := "/f",
      username := none, encoding := "text", permissions := none }
    { host := "h", port := 22, sourcePath := "/f", username := none,
      encoding := "text" }
    { host := "h", port := 22, username := none }
    (some "root")).2.2.2.2.2.1 "alice" (by decide))

/-! ### Helper lemmas about the runs -/

theorem unlinkWorld_remoteFS (res : Except String Unit) (tmp : String)
    (w : World) : (unlinkWorld res tmp w).remoteFS = w.remoteFS := by
  cases res <;> rfl

theorem jsOrStr_falsy {a b : Option String} (ha : jsTruthy a = false)
    (hb : jsTruthy b = false) : jsTruthy (jsOrStr a b) = false := by
  simp [jsOrStr, ha, hb]

/-- On a fully successful wire, Upload File emits the destination path and
the byte length of the decoded content, and the remote file system gains
exactly those bytes at the destination path. -/
theorem uploadFileRun_ok (app : AppConfig) (iu : UploadInput)
    (wu : UploadWire) (w : World)
    (hpk : jsTruthy app.privateKey = true)
    (hu : jsTruthy (jsOrStr iu.username app.username) = true)
    (hconn : nodeSSHConnect (uploadFileConnectOptions app iu) wu.server =
      Except.ok ())
    (hw : wu.writeResult = Except.ok ())
    (hput : wu.putResult = Except.ok ())
    (rc : ExecResult) (hch : wu.chmodExec = Except.ok rc)
    (hst : wu.statResult = Except.ok ()) :
    (uploadFileRun app iu wu w).1 =
      Except.ok
        { path := iu.destinationPath
          size := (uploadFileContent iu.encoding iu.content).length } ∧
    ((uploadFileRun app iu wu w).2.2).remoteFS =
      storeFile w.remoteFS iu.destinationPath
        (uploadFileContent iu.encoding iu.content) := by
  unfold uploadFileRun
  by_cases hp : jsTruthy iu.permissions <;>
    simp [hpk, hu, hconn, hw, hput, hch, hst, hp, readFileBytes_store_same,
      unlinkWorld_remoteFS]

/-- On a successful wire, Download File emits the re-encoded remote bytes
together with size, parsed permissions and rendered mtime. -/
theorem downloadFileRun_ok (app : AppConfig) (idl : DownloadInput)
    (wd : DownloadWire) (w : World)
    (hpk : jsTruthy app.privateKey = true)
    (hu : jsTruthy (jsOrStr idl.username app.username) = true)
    (hconn : nodeSSHConnect (downloadFileConnectOptions app idl) wd.server =
      Except.ok ())
    (hget : wd.getResult = Except.ok ())
    (bs : List Nat) (hbs : readFileBytes w.remoteFS idl.sourcePath = some bs)
    (rs : ExecResult) (hstat : wd.statExec = Except.ok rs)
    (n : Int) (hts : (parseStatOutput rs.stdout).2 = some n) :
    (downloadFileRun app idl wd w).1 =
      Except.ok
        { content := downloadContentString idl.encoding bs
          path := idl.sourcePath
          size := bs.length
          permissions := (parseStatOutput rs.stdout).1
          modifiedTime := jsToISOStringModel (n * 1000) } := by
  unfold downloadFileRun
  simp [hpk, hu, hconn, hget, hbs, hstat, hts, readFileBytes_store_same]

theorem executeCommandRun_config (app : AppConfig) (ic : CommandInput)
    (wc : CommandWire)
    (h : jsTruthy app.privateKey = false ∨
      jsTruthy (jsOrStr ic.username app.username) = false) :
    (∃ m, (executeCommandRun app ic wc).1 = Except.error (OpError.config m)) ∧
    (executeCommandRun app ic wc).2 = [] := by
  unfold executeCommandRun
  rcases h with h | h
  · simp [h]
  · by_cases hp : jsTruthy app.privateKey <;> simp [h, hp]

theorem executeScriptRun_config (app : AppConfig) (is2 : ScriptInput)
    (ws : ScriptWire)
    (h : jsTruthy app.privateKey = false ∨
      jsTruthy (jsOrStr is2.username app.username) = false) :
    (∃ m, (executeScriptRun app is2 ws).1 = Except.error (OpError.config m)) ∧
    (executeScriptRun app is2 ws).2 = [] := by
  unfold executeScriptRun
  rcases h with h | h
  · simp [h]
  · by_cases hp : jsTruthy app.privateKey <;> simp [h, hp]

theorem uploadFileRun_config (app : AppConfig) (iu : UploadInput)
    (wu : UploadWire) (w : World)
    (h : jsTruthy app.privateKey = false ∨
      jsTruthy (jsOrStr iu.username app.username) = false) :
    (∃ m, (uploadFileRun app iu wu w).1 = Except.error (OpError.config m)) ∧
    (uploadFileRun app iu wu w).2.1 = [] ∧
    (uploadFileRun app iu wu w).2.2 = w := by
  unfold uploadFileRun
  rcases h with h | h
  · simp [h]
  · by_cases hp : jsTruthy app.privateKey <;> simp [h, hp]

theorem downloadFileRun_config (app : AppConfig) (idl : DownloadInput)
    (wd : DownloadWire) (w : World)
    (h : jsTruthy app.privateKey = false ∨
      jsTruthy (jsOrStr idl.username app.username) = false) :
    (∃ m, (downloadFileRun app idl wd w).1 = Except.error (OpError.config m)) ∧
    (downloadFileRun app idl wd w).2.1 = [] ∧
    (downloadFileRun app idl wd w).2.2 = w := by
  unfold downloadFileRun
  rcases h with h | h
  · simp [h]
  · by_cases hp : jsTruthy app.privateKey <;> simp [h, hp]

theorem hostMetadataRun_config (app : AppConfig) (im : MetadataInput)
    (wm : MetadataWire)
    (h : jsTruthy app.privateKey = false ∨
      jsTruthy (jsOrStr im.username app.username) = false) :
    (∃ m, (hostMetadataRun app im wm).1 = SyncResult.failed m) ∧
    (hostMetadataRun app im wm).2 = [] := by
  unfold hostMetadataRun
  rcases h with h | h
  · simp [h]
  · by_cases hp : jsTruthy app.privateKey <;> simp [h, hp]

/-- C9: with a permissions parameter, Upload File runs the chmod command
but never inspects its result: the emitted outcome is the same for any two
chmod exit results, and on an otherwise successful wire the upload emits a
success regardless of the chmod exit code. -/
theorem c9_chmod_outcome_ignored (app : AppConfig) (iu : UploadInput)
    (wu : UploadWire) (w : World) (x y : ExecResult)
    (hperm : jsTruthy iu.permissions = true)
    (hpk : jsTruthy app.privateKey = true)
    (hu : jsTruthy (jsOrStr iu.username app.username) = true)
    (hconn : nodeSSHConnect (uploadFileConnectOptions app iu) wu.server =
      Except.ok ())
    (hw : wu.writeResult = Except.ok ())
    (hput : wu.putResult = Except.ok ())
    (hst : wu.statResult = Except.ok ()) :
    (uploadFileRun app iu { wu with chmodExec := Except.ok x } w).1 =
      (uploadFileRun app iu { wu with chmodExec := Except.ok y } w).1 ∧
    (uploadFileRun app iu { wu with chmodExec := Except.ok x } w).1 =
      Except.ok
        { path := iu.destinationPath
          size := (uploadFileContent iu.encoding iu.content).length } := by
  have hx := (uploadFileRun_ok app iu { wu with chmodExec := Except.ok x } w
    hpk hu hconn hw hput x rfl hst).1
  have hy := (uploadFileRun_ok app iu { wu with chmodExec := Except.ok y } w
    hpk hu hconn hw hput y rfl hst).1
  exact ⟨hx.trans hy.symm, hx⟩

/-- C9 witness: a concrete upload whose chmod exits 1 still emits success,
and its outcome agrees with the run whose chmod exits 0. -/
theorem c9_chmod_outcome_ignored_witness :
    jsTruthy (some "0644") = true ∧
    ((uploadFileRun
      { privateKey := some "KEY", username := some "root", knownHosts := [] }
      { host := "h", port := 22, content := "hi", destinationPath := "/f",
        username := none, encoding := "text", permissions := some "0644" }
      { server :=
          { reachable := true
            presentedHostKey := "hk"
            acceptedLogins := [("root", "KEY")] }
        timestamp := 1
        random := "r"
        writeResult := Except.ok ()
        putResult := Except.ok ()
        chmodExec := Except.ok { stdout := "", stderr := "", code := 1 }
        statResult := Except.ok ()
        unlinkResult := Except.ok () } { localFS := [], remoteFS := [] }).1 =
      Except.ok { path := "/f", size := 2 }) := by
  have h := c9_chmod_outcome_ignored
    { privateKey := some "KEY", username := some "root", knownHosts := [] }
    { host := "h", port := 22, content := "hi", destinationPath := "/f",
      username := none, encoding := "text", permissions := some "0644" }
    { server :=
        { reachable := true
          presentedHostKey := "hk"
          acceptedLogins := [("root", "KEY")] }
      timestamp := 1
      random := "r"
      writeResult := Except.ok ()
      putResult := Except.ok ()
      chmodExec := Except.ok { stdout := "", stderr := "", code := 0 }
      statResult := Except.ok ()
      unlinkResult := Except.ok () }
    { localFS := [], remoteFS := [] }
    { stdout := "", stderr := "", code := 1 }
    { stdout := "", stderr := "", code := 0 }
    rfl rfl rfl rfl rfl rfl rfl
  refine ⟨rfl, ?_⟩
  have h2 := h.2
  refine h2.trans ?_
  have e : (uploadFileContent "text" "hi").length = 2 := rfl
  rw [e]

/-- C2: when the app-level private key is absent, or neither the app-level
default username nor the per-call username is supplied, every one of the
five operations fails with its configuration error and performs no action
at all: the trace is empty (no network I/O), and the transfer operations
leave the world untouched. -/
theorem c2_configFault_before_network (app : AppConfig) (ic : CommandInput)
    (is2 : ScriptInput) (iu : UploadInput) (idl : DownloadInput)
    (im : MetadataInput) (wc : CommandWire) (ws : ScriptWire)
    (wu : UploadWire) (wd : DownloadWire) (wm : MetadataWire) (w w' : World)
    (h : jsTruthy app.privateKey = false ∨
      (jsTruthy ic.username = false ∧ jsTruthy is2.username = false ∧
       jsTruthy iu.username = false ∧ jsTruthy idl.username = false ∧
       jsTruthy im.username = false ∧ jsTruthy app.username = false)) :
    ((∃ m, (executeCommandRun app ic wc).1 = Except.error (OpError.config m)) ∧
      (executeCommandRun app ic wc).2 = []) ∧
    ((∃ m, (executeScriptRun app is2 ws).1 = Except.error (OpError.config m)) ∧
      (executeScriptRun app is2 ws).2 = []) ∧
    ((∃ m, (uploadFileRun app iu wu w).1 = Except.error (OpError.config m)) ∧
      (uploadFileRun app iu wu w).2.1 = [] ∧
      (uploadFileRun app iu wu w).2.2 = w) ∧
    ((∃ m, (downloadFileRun app idl wd w').1 =
        Except.error (OpError.config m)) ∧
      (downloadFileRun app idl wd w').2.1 = [] ∧
      (downloadFileRun app idl wd w').2.2 = w') ∧
    ((∃ m, (hostMetadataRun app im wm).1 = SyncResult.failed m) ∧
      (hostMetadataRun app im wm).2 = []) := by
  have hc : jsTruthy app.privateKey = false ∨
      jsTruthy (jsOrStr ic.username app.username) = false := by
    rcases h with h | ⟨h1, _, _, _, _, h6⟩
    · exact Or.inl h
    · exact Or.inr (jsOrStr_falsy h1 h6)
  have hs : jsTruthy app.privateKey = false ∨
      jsTruthy (jsOrStr is2.username app.username) = false := by
    rcases h with h | ⟨_, h2, _, _, _, h6⟩
    · exact Or.inl h
    · exact Or.inr (jsOrStr_falsy h2 h6)
  have hu : jsTruthy app.privateKey = false ∨
      jsTruthy (jsOrStr iu.username app.username) = false := by
    rcases h with h | ⟨_, _, h3, _, _, h6⟩
    · exact Or.inl h
    · exact Or.inr (jsOrStr_falsy h3 h6)
  have hd : jsTruthy app.privateKey = false ∨
      jsTruthy (jsOrStr idl.username app.username) = false := by
    rcases h with h | ⟨_, _, _, h4, _, h6⟩
    · exact Or.inl h
    · exact Or.inr (jsOrStr_falsy h4 h6)
  have hm : jsTruthy app.privateKey = false ∨
      jsTruthy (jsOrStr im.username app.username) = false := by
    rcases h with h | ⟨_, _, _, _, h5, h6⟩
    · exact Or.inl h
    · exact Or.inr (jsOrStr_falsy h5 h6)
  exact ⟨executeCommandRun_config app ic wc hc,
    executeScriptRun_config app is2 ws hs,
    uploadFileRun_config app iu wu w hu,
    downloadFileRun_config app idl wd w' hd,
    hostMetadataRun_config app im wm hm⟩

/-- C2 witness: with no private key configured, the concrete Execute
Command run fails with a configuration error and an empty trace. -/
theorem c2_configFault_before_network_witness :
    jsTruthy (none : Option String) = false ∧
    (executeCommandRun
      { privateKey := none, username := some "root", knownHosts := [] }
      { host := "h", port := 22, command := "id", username := none,
        workingDirectory := none }
      { server :=
          { reachable := true
            presentedHostKey := "hk"
            acceptedLogins := [("root", "KEY")] }
        connectMillis := 0
        exec := Except.ok { stdout := "", stderr := "", code := 0 }
        execMillis := 0 }).2 = [] := by
  have h := c2_configFault_before_network
    { privateKey := none, username := some "root", knownHosts := [] }
    { host := "h", port := 22, command := "id", username := none,
      workingDirectory := none }
    { host := "h", port := 22, script := "", username := none,
      interpreter := none, workingDirectory := none }
    { host := "h", port := 22, content := "", destinationPath := "/f",
      username := none, encoding := "text", permissions := none }
    { host := "h", port := 22, sourcePath := "/f", username := none,
      encoding := "text" }
    { host := "h", port := 22, username := none }
    { server :=
        { reachable := true
          presentedHostKey := "hk"
          acceptedLogins := [("root", "KEY")] }
      connectMillis := 0
      exec := Except.ok { stdout := "", stderr := "", code := 0 }
      execMillis := 0 }
    { server :=
        { reachable := true
          presentedHostKey := "hk"
          acceptedLogins := [("root", "KEY")] }
      connectMillis := 0
      timestamp := 0
      random := ""
      stageExec := Except.ok { stdout := "", stderr := "", code := 0 }
      stageMillis := 0
      chmodExec := Except.ok { stdout := "", stderr := "", code := 0 }
      chmodMillis := 0
      runExec := Except.ok { stdout := "", stderr := "", code := 0 }
      runMillis := 0
      rmExec := Except.ok { stdout := "", stderr := "", code := 0 } }
    { server :=
        { reachable := true
          presentedHostKey := "hk"
          acceptedLogins := [("root", "KEY")] }
      timestamp := 0
      random := ""
      writeResult := Except.ok ()
      putResult := Except.ok ()
      chmodExec := Except.ok { stdout := "", stderr := "", code := 0 }
      statResult := Except.ok ()
      unlinkResult := Except.ok () }
    { server :=
        { reachable := true
          presentedHostKey := "hk"
          acceptedLogins := [("root", "KEY")] }
      timestamp := 0
      random := ""
      getResult := Except.ok ()
      statExec := Except.ok { stdout := "", stderr := "", code := 0 }
      unlinkResult := Except.ok () }
    { server :=
        { reachable := true
          presentedHostKey := "hk"
          acceptedLogins := [("root", "KEY")] }
      hostnameExec := Except.ok { stdout := "", stderr := "", code := 0 }
      osTypeExec := Except.ok { stdout := "", stderr := "", code := 0 }
      osReleaseExec := Except.ok { stdout := "", stderr := "", code := 0 }
      archExec := Except.ok { stdout := "", stderr := "", code := 0 }
      uptimeExec := Except.ok { stdout := "", stderr := "", code := 0 }
      loadExec := Except.ok { stdout := "", stderr := "", code := 0 }
      memExec := Except.ok { stdout := "", stderr := "", code := 0 } }
    { localFS := [], remoteFS := [] } { localFS := [], remoteFS := [] }
    (Or.inl rfl)
  exact ⟨rfl, h.1.2⟩

/-- C4: for Execute Command and Execute Script, a remote command or script
finishing with any exit code (non-zero included) produces a successful
emission carrying that exit code in `exitCode`; a transport-level error
result can only come from a failed connect or a rejected exec dispatch. -/
theorem c4_nonzero_exit_is_success (app : AppConfig) (ic : CommandInput)
    (wc : CommandWire) (is2 : ScriptInput) (ws : ScriptWire)
    (hpk : jsTruthy app.privateKey = true)
    (huC : jsTruthy (jsOrStr ic.username app.username) = true)
    (huS : jsTruthy (jsOrStr is2.username app.username) = true) :
    (∀ r : ExecResult,
      nodeSSHConnect (executeCommandConnectOptions app ic) wc.server =
        Except.ok () →
      wc.exec = Except.ok r →
      (executeCommandRun app ic wc).1 = Except.ok
        { stdout := r.stdout
          stderr := r.stderr
          exitCode := r.code
          duration := wc.connectMillis + wc.execMillis }) ∧
    (∀ r1 r2 r : ExecResult,
      nodeSSHConnect (executeScriptConnectOptions app is2) ws.server =
        Except.ok () →
      ws.stageExec = Except.ok r1 → ws.chmodExec = Except.ok r2 →
      ws.runExec = Except.ok r →
      (executeScriptRun app is2 ws).1 = Except.ok
        { stdout := r.stdout
          stderr := r.stderr
          exitCode := r.code
          duration := ws.connectMillis + ws.stageMillis + ws.chmodMillis +
            ws.runMillis }) ∧
    (∀ e, (executeCommandRun app ic wc).1 = Except.error (OpError.transport e) →
      nodeSSHConnect (executeCommandConnectOptions app ic) wc.server =
        Except.error e ∨ wc.exec = Except.error e) ∧
    (∀ e, (executeScriptRun app is2 ws).1 = Except.error (OpError.transport e) →
      nodeSSHConnect (executeScriptConnectOptions app is2) ws.server =
        Except.error e ∨ ws.stageExec = Except.error e ∨
      ws.chmodExec = Except.error e ∨ ws.runExec = Except.error e) := by
  refine ⟨?_, ?_, ?_, ?_⟩
  · intro r hc he
    unfold executeCommandRun
    simp [hpk, huC, hc, he]
  · intro r1 r2 r hc h1 h2 h3
    unfold executeScriptRun
    simp [hpk, huS, hc, h1, h2, h3]
  · intro e h
    unfold executeCommandRun at h
    simp only [hpk, huC] at h
    rcases hc : nodeSSHConnect (executeCommandConnectOptions app ic)
        wc.server with e2 | u
    · rw [hc] at h
      simp at h
      exact Or.inl (by rw [h])
    · rw [hc] at h
      rcases he : wc.exec with e3 | r
      · rw [he] at h
        simp at h
        exact Or.inr (by rw [h])
      · rw [he] at h
        simp at h
  · intro e h
    unfold executeScriptRun at h
    simp only [hpk, huS] at h
    rcases hc : nodeSSHConnect (executeScriptConnectOptions app is2)
        ws.server with e2 | u
    · rw [hc] at h
      simp at h
      exact Or.inl (by rw [h])
    · rw [hc] at h
      rcases h1 : ws.stageExec with e3 | r1
      · rw [h1] at h
        simp at h
        exact Or.inr (Or.inl (by rw [h]))
      · rw [h1] at h
        rcases h2 : ws.chmodExec with e4 | r2
        · rw [h2] at h
          simp at h
          exact Or.inr (Or.inr (Or.inl (by rw [h])))
        · rw [h2] at h
          rcases h3 : ws.runExec with e5 | r3
          · rw [h3] at h
            simp at h
            exact Or.inr (Or.inr (Or.inr (by rw [h])))
          · rw [h3] at h
            simp at h

/-- C4 witness: a concrete command exiting 7 is reported as a success with
exitCode 7. -/
theorem c4_nonzero_exit_is_success_witness :
    jsTruthy (some "KEY") = true ∧
    (executeCommandRun
      { privateKey := some "KEY", username := some "root", knownHosts := [] }
      { host := "h", port := 22, command := "exit 7", username := none,
        workingDirectory := none }
      { server :=
          { reachable := true
            presentedHostKey := "hk"
            acceptedLogins := [("root", "KEY")] }
        connectMillis := 5
        exec := Except.ok { stdout := "", stderr := "", code := 7 }
        execMillis := 11 }).1 =
      Except.ok { stdout := "", stderr := "", exitCode := 7, duration := 16 } := by
  have h := (c4_nonzero_exit_is_success
    { privateKey := some "KEY", username := some "root", knownHosts := [] }
    { host := "h", port := 22, command := "exit 7", username := none,
      workingDirectory := none }
    { server :=
        { reachable := true
          presentedHostKey := "hk"
          acceptedLogins := [("root", "KEY")] }
      connectMillis := 5
      exec := Except.ok { stdout := "", stderr := "", code := 7 }
      execMillis := 11 }
    { host := "h", port := 22, script := "", username := none,
      interpreter := none, workingDirectory := none }
    { server :=
        { reachable := true
          presentedHostKey := "hk"
          acceptedLogins := [("root", "KEY")] }
      connectMillis := 0
      timestamp := 0
      random := ""
      stageExec := Except.ok { stdout := "", stderr := "", code := 0 }
      stageMillis := 0
      chmodExec := Except.ok { stdout := "", stderr := "", code := 0 }
      chmodMillis := 0
      runExec := Except.ok { stdout := "", stderr := "", code := 0 }
      runMillis := 0
      rmExec := Except.ok { stdout := "", stderr := "", code := 0 } }
    rfl rfl rfl).1
    { stdout := "", stderr := "", code := 7 } rfl rfl
  exact ⟨rfl, h⟩

/-- Concrete app config for the C7 counterexample run. -/
def c7App : AppConfig :=
  { privateKey := some "KEY", username := some "root", knownHosts := [] }

/-- Concrete script input for the C7 counterexample run. -/
def c7Input : ScriptInput :=
  { host := "h", port := 22, script := "echo hi", username := none,
    interpreter := none, workingDirectory := none }

/-- Concrete wire for the C7 counterexample run: connect takes 5 ms,
staging 3 ms, chmod 2 ms and the interpreter step 7 ms. -/
def c7Wire : ScriptWire :=
  { server :=
      { reachable := true
        presentedHostKey := "hk"
        acceptedLogins := [("root", "KEY")] }
    connectMillis := 5
    timestamp := 1
    random := "r"
    stageExec := Except.ok { stdout := "", stderr := "", code := 0 }
    stageMillis := 3
    chmodExec := Except.ok { stdout := "", stderr := "", code := 0 }
    chmodMillis := 2
    runExec := Except.ok { stdout := "hi", stderr := "", code := 0 }
    runMillis := 7
    rmExec := Except.ok { stdout := "", stderr := "", code := 0 } }

/-- C7 counterexample: the claim says the reported duration measures only
the interpreter-invocation step.  In the code `startTime` is taken before
`ssh.connect` (files.ts line 393) and the difference is taken right after
the interpreter step (line 424), so with connect 5 ms, staging 3 ms, chmod
2 ms and interpreter 7 ms the emitted duration is 17 ms, not the
interpreter step's 7 ms. -/
theorem c7_duration_counterexample :
    (∃ out, (executeScriptRun c7App c7Input c7Wire).1 = Except.ok out ∧
      out.duration = 17) ∧
    c7Wire.runMillis = 7 ∧ ¬ (17 : Nat) = 7 := by
  refine ⟨⟨{ stdout := "hi", stderr := "", exitCode := 0, duration := 17 },
    rfl, rfl⟩, rfl, by decide⟩

/-- C7 amended: the duration reported by Execute Script spans the whole
connected part of the run: it is the sum of the connect, staging, chmod and
interpreter step times (and excludes only the pre-connect config checks and
the finally-block cleanup). -/
theorem c7_amended_duration_spans_staging (app : AppConfig)
    (is2 : ScriptInput) (ws : ScriptWire)
    (hpk : jsTruthy app.privateKey = true)
    (hu : jsTruthy (jsOrStr is2.username app.username) = true)
    (hconn : nodeSSHConnect (executeScriptConnectOptions app is2) ws.server =
      Except.ok ())
    (r1 r2 r : ExecResult)
    (h1 : ws.stageExec = Except.ok r1) (h2 : ws.chmodExec = Except.ok r2)
    (h3 : ws.runExec = Except.ok r) :
    ∃ out, (executeScriptRun app is2 ws).1 = Except.ok out ∧
      out.duration = ws.connectMillis + ws.stageMillis + ws.chmodMillis +
        ws.runMillis := by
  refine ⟨{ stdout := r.stdout
            stderr := r.stderr
            exitCode := r.code
            duration := ws.connectMillis + ws.stageMillis + ws.chmodMillis +
              ws.runMillis }, ?_, rfl⟩
  unfold executeScriptRun
  simp [hpk, hu, hconn, h1, h2, h3]

/-- C7 amended witness: at the concrete wire the emitted duration is the
sum 5 + 3 + 2 + 7 = 17. -/
theorem c7_amended_duration_spans_staging_witness :
    jsTruthy c7App.privateKey = true ∧
    (∃ out, (executeScriptRun c7App c7Input c7Wire).1 = Except.ok out ∧
      out.duration = c7Wire.connectMillis + c7Wire.stageMillis +
        c7Wire.chmodMillis + c7Wire.runMillis) :=
  ⟨rfl, c7_amended_duration_spans_staging c7App c7Input c7Wire rfl rfl rfl
    { stdout := "", stderr := "", code := 0 }
    { stdout := "", stderr := "", code := 0 }
    { stdout := "hi", stderr := "", code := 0 } rfl rfl rfl⟩

/-! ### Cleanup structure of every run (for C5) -/

theorem executeCommandRun_dispose (app : AppConfig) (ic : CommandInput)
    (wc : CommandWire) :
    (executeCommandRun app ic wc).2 = [] ∨
      BlockAction.dispose ∈ (executeCommandRun app ic wc).2 := by
  unfold executeCommandRun
  rcases hc : nodeSSHConnect (executeCommandConnectOptions app ic) wc.server
      with e | u <;>
    simp only [hc] <;> (repeat' split) <;> simp_all

theorem executeScriptRun_dispose (app : AppConfig) (is2 : ScriptInput)
    (ws : ScriptWire) :
    (executeScriptRun app is2 ws).2 = [] ∨
      BlockAction.dispose ∈ (executeScriptRun app is2 ws).2 := by
  unfold executeScriptRun
  rcases hc : nodeSSHConnect (executeScriptConnectOptions app is2) ws.server
      with e | u <;>
    simp only [hc] <;> (repeat' split) <;> simp_all

theorem uploadFileRun_dispose (app : AppConfig) (iu : UploadInput)
    (wu : UploadWire) (w : World) :
    (uploadFileRun app iu wu w).2.1 = [] ∨
      BlockAction.dispose ∈ (uploadFileRun app iu wu w).2.1 := by
  unfold uploadFileRun
  rcases hc : nodeSSHConnect (uploadFileConnectOptions app iu) wu.server
      with e | u <;>
    simp only [hc] <;> (repeat' split) <;> simp_all

theorem downloadFileRun_dispose (app : AppConfig) (idl : DownloadInput)
    (wd : DownloadWire) (w : World) :
    (downloadFileRun app idl wd w).2.1 = [] ∨
      BlockAction.dispose ∈ (downloadFileRun app idl wd w).2.1 := by
  unfold downloadFileRun
  rcases hc : nodeSSHConnect (downloadFileConnectOptions app idl) wd.server
      with e | u <;>
    simp only [hc] <;> (repeat' split) <;> simp_all

theorem hostMetadataRun_dispose (app : AppConfig) (im : MetadataInput)
    (wm : MetadataWire) :
    (hostMetadataRun app im wm).2 = [] ∨
      BlockAction.dispose ∈ (hostMetadataRun app im wm).2 := by
  unfold hostMetadataRun
  rcases hc : nodeSSHConnect (hostMetadataConnectOptions app im) wm.server
      with e | u <;>
    simp only [hc] <;> (repeat' split) <;> simp_all

theorem executeScriptRun_rm_attempt (app : AppConfig) (is2 : ScriptInput)
    (ws : ScriptWire)
    (hmem : BlockAction.execCommand
        (createScriptCommand (scriptTempFile ws) is2.script) none ∈
      (executeScriptRun app is2 ws).2) :
    BlockAction.execCommand (rmTempCommand (scriptTempFile ws)) none ∈
      (executeScriptRun app is2 ws).2 := by
  unfold executeScriptRun at hmem ⊢
  rcases hc : nodeSSHConnect (executeScriptConnectOptions app is2) ws.server
      with e | u <;>
    simp only [hc] at hmem ⊢ <;> (repeat' split) <;>
    (repeat' split at hmem) <;> simp_all

theorem executeScriptRun_rm_swallowed (app : AppConfig) (is2 : ScriptInput)
    (ws : ScriptWire) (x : Except String ExecResult) :
    executeScriptRun app is2 { ws with rmExec := x } =
      executeScriptRun app is2 ws := rfl

theorem uploadFileRun_unlink_attempt (app : AppConfig) (iu : UploadInput)
    (wu : UploadWire) (w : World)
    (hmem : BlockAction.writeLocal (uploadTempPath wu) ∈
      (uploadFileRun app iu wu w).2.1) :
    BlockAction.unlinkLocal (uploadTempPath wu) ∈
      (uploadFileRun app iu wu w).2.1 := by
  unfold uploadFileRun at hmem ⊢
  rcases hc : nodeSSHConnect (uploadFileConnectOptions app iu) wu.server
      with e | u <;>
    simp only [hc] at hmem ⊢ <;> (repeat' split) <;>
    (repeat' split at hmem) <;> simp_all

theorem downloadFileRun_unlink_attempt (app : AppConfig) (idl : DownloadInput)
    (wd : DownloadWire) (w : World)
    (hmem : BlockAction.getFile (downloadTempPath wd) idl.sourcePath ∈
      (downloadFileRun app idl wd w).2.1) :
    BlockAction.unlinkLocal (downloadTempPath wd) ∈
      (downloadFileRun app idl wd w).2.1 := by
  unfold downloadFileRun at hmem ⊢
  rcases hc : nodeSSHConnect (downloadFileConnectOptions app idl) wd.server
      with e | u <;>
    simp only [hc] at hmem ⊢ <;> (repeat' split) <;>
    (repeat' split at hmem) <;> simp_all

theorem uploadFileRun_unlink_swallowed (app : AppConfig) (iu : UploadInput)
    (wu : UploadWire) (w : World) (x : Except String Unit) :
    (uploadFileRun app iu { wu with unlinkResult := x } w).1 =
      (uploadFileRun app iu wu w).1 ∧
    (uploadFileRun app iu { wu with unlinkResult := x } w).2.1 =
      (uploadFileRun app iu wu w).2.1 := by
  obtain ⟨srv, ts, rnd, wr, pr, ch, st, ul⟩ := wu
  unfold uploadFileRun
  rcases hc : nodeSSHConnect (uploadFileConnectOptions app iu) srv
      with e | u <;>
    simp only [hc, readFileBytes_store_same] <;> (repeat' split) <;>
    simp_all [uploadTempPath]

theorem downloadFileRun_unlink_swallowed (app : AppConfig)
    (idl : DownloadInput) (wd : DownloadWire) (w : World)
    (x : Except String Unit) :
    (downloadFileRun app idl { wd with unlinkResult := x } w).1 =
      (downloadFileRun app idl wd w).1 ∧
    (downloadFileRun app idl { wd with unlinkResult := x } w).2.1 =
      (downloadFileRun app idl wd w).2.1 := by
  obtain ⟨srv, ts, rnd, gr, se, ul⟩ := wd
  unfold downloadFileRun
  rcases hc : nodeSSHConnect (downloadFileConnectOptions app idl) srv
      with e | u <;>
    simp only [hc, readFileBytes_store_same] <;> (repeat' split) <;>
    simp_all [downloadTempPath]

theorem uploadFileRun_temp_deleted (app : AppConfig) (iu : UploadInput)
    (wu : UploadWire) (w : World)
    (hok : wu.unlinkResult = Except.ok ())
    (hmem : BlockAction.unlinkLocal (uploadTempPath wu) ∈
      (uploadFileRun app iu wu w).2.1) :
    readFileBytes ((uploadFileRun app iu wu w).2.2).localFS
      (uploadTempPath wu) = none := by
  unfold uploadFileRun at hmem ⊢
  rcases hc : nodeSSHConnect (uploadFileConnectOptions app iu) wu.server
      with e | u <;>
    simp only [hc] at hmem ⊢ <;> (repeat' split) <;>
    (repeat' split at hmem) <;>
    simp_all [hok, unlinkWorld, readFileBytes_remove_same]

theorem downloadFileRun_temp_deleted (app : AppConfig) (idl : DownloadInput)
    (wd : DownloadWire) (w : World)
    (hok : wd.unlinkResult = Except.ok ())
    (hmem : BlockAction.unlinkLocal (downloadTempPath wd) ∈
      (downloadFileRun app idl wd w).2.1) :
    readFileBytes ((downloadFileRun app idl wd w).2.2).localFS
      (downloadTempPath wd) = none := by
  unfold downloadFileRun at hmem ⊢
  rcases hc : nodeSSHConnect (downloadFileConnectOptions app idl) wd.server
      with e | u <;>
    simp only [hc] at hmem ⊢ <;> (repeat' split) <;>
    (repeat' split at hmem) <;>
    simp_all [hok, unlinkWorld, readFileBytes_remove_same]

/-- C5: every operation's non-empty trace contains the `ssh.dispose()` call
(the session is released on every exit path); whenever a local temp file
was staged (Upload/Download) or a remote temp script was staged (Execute
Script), the corresponding cleanup attempt is in the trace; when the unlink
succeeds the temp file is gone from the final world; and a failing cleanup
never changes the operation's emitted result or its action trace. -/
theorem c5_cleanup_on_every_path (app : AppConfig) (ic : CommandInput)
    (is2 : ScriptInput) (iu : UploadInput) (idl : DownloadInput)
    (im : MetadataInput) (wc : CommandWire) (ws : ScriptWire)
    (wu : UploadWire) (wd : DownloadWire) (wm : MetadataWire) (w w' : World)
    (x y : Except String Unit) (xr : Except String ExecResult) :
    ((executeCommandRun app ic wc).2 = [] ∨
      BlockAction.dispose ∈ (executeCommandRun app ic wc).2) ∧
    ((executeScriptRun app is2 ws).2 = [] ∨
      BlockAction.dispose ∈ (executeScriptRun app is2 ws).2) ∧
    ((uploadFileRun app iu wu w).2.1 = [] ∨
      BlockAction.dispose ∈ (uploadFileRun app iu wu w).2.1) ∧
    ((downloadFileRun app idl wd w').2.1 = [] ∨
      BlockAction.dispose ∈ (downloadFileRun app idl wd w').2.1) ∧
    ((hostMetadataRun app im wm).2 = [] ∨
      BlockAction.dispose ∈ (hostMetadataRun app im wm).2) ∧
    (BlockAction.execCommand
        (createScriptCommand (scriptTempFile ws) is2.script) none ∈
        (executeScriptRun app is2 ws).2 →
      BlockAction.execCommand (rmTempCommand (scriptTempFile ws)) none ∈
        (executeScriptRun app is2 ws).2) ∧
    (BlockAction.writeLocal (uploadTempPath wu) ∈
        (uploadFileRun app iu wu w).2.1 →
      BlockAction.unlinkLocal (uploadTempPath wu) ∈
        (uploadFileRun app iu wu w).2.1) ∧
    (BlockAction.getFile (downloadTempPath wd) idl.sourcePath ∈
        (downloadFileRun app idl wd w').2.1 →
      BlockAction.unlinkLocal (downloadTempPath wd) ∈
        (downloadFileRun app idl wd w').2.1) ∧
    (wu.unlinkResult = Except.ok () →
      BlockAction.unlinkLocal (uploadTempPath wu) ∈
        (uploadFileRun app iu wu w).2.1 →
      readFileBytes ((uploadFileRun app iu wu w).2.2).localFS
        (uploadTempPath wu) = none) ∧
    (wd.unlinkResult = Except.ok () →
      BlockAction.unlinkLocal (downloadTempPath wd) ∈
        (downloadFileRun app idl wd w').2.1 →
      readFileBytes ((downloadFileRun app idl wd w').2.2).localFS
        (downloadTempPath wd) = none) ∧
    executeScriptRun app is2 { ws with rmExec := xr } =
      executeScriptRun app is2 ws ∧
    (uploadFileRun app iu { wu with unlinkResult := x } w).1 =
      (uploadFileRun app iu wu w).1 ∧
    (downloadFileRun app idl { wd with unlinkResult := y } w').1 =
      (downloadFileRun app idl wd w').1 :=
  ⟨executeCommandRun_dispose app ic wc,
    executeScriptRun_dispose app is2 ws,
    uploadFileRun_dispose app iu wu w,
    downloadFileRun_dispose app idl wd w',
    hostMetadataRun_dispose app im wm,
    fun h => executeScriptRun_rm_attempt app is2 ws h,
    fun h => uploadFileRun_unlink_attempt app iu wu w h,
    fun h => downloadFileRun_unlink_attempt app idl wd w' h,
    fun hok h => uploadFileRun_temp_deleted app iu wu w hok h,
    fun hok h => downloadFileRun_temp_deleted app idl wd w' hok h,
    executeScriptRun_rm_swallowed app is2 ws xr,
    (uploadFileRun_unlink_swallowed app iu wu w x).1,
    (downloadFileRun_unlink_swallowed app idl wd w' y).1⟩

/-- C5 witness: on a concrete successful upload whose unlink succeeds, the
cleanup conjuncts are all realized: the trace contains dispose and the
unlink of the staged temp file, and the temp file is absent afterwards. -/
theorem c5_cleanup_on_every_path_witness :
    (Except.ok () : Except String Unit) = Except.ok () ∧
    BlockAction.unlinkLocal "/tmp/ssh-upload-1-r" ∈
      (uploadFileRun
        { privateKey := some "KEY", username := some "root", knownHosts := [] }
        { host := "h", port := 22, content := "hi", destinationPath := "/f",
          username := none, encoding := "text", permissions := none }
        { server :=
            { reachable := true
              presentedHostKey := "hk"
              acceptedLogins := [("root", "KEY")] }
          timestamp := 1
          random := "r"
          writeResult := Except.ok ()
          putResult := Except.ok ()
          chmodExec := Except.ok { stdout := "", stderr := "", code := 0 }
          statResult := Except.ok ()
          unlinkResult := Except.ok () }
        { localFS := [], remoteFS := [] }).2.1 ∧
    readFileBytes
      ((uploadFileRun
        { privateKey := some "KEY", username := some "root", knownHosts := [] }
        { host := "h", port := 22, content := "hi", destinationPath := "/f",
          username := none, encoding := "text", permissions := none }
        { server :=
            { reachable := true
              presentedHostKey := "hk"
              acceptedLogins := [("root", "KEY")] }
          timestamp := 1
          random := "r"
          writeResult := Except.ok ()
          putResult := Except.ok ()
          chmodExec := Except.ok { stdout := "", stderr := "", code := 0 }
          statResult := Except.ok ()
          unlinkResult := Except.ok () }
        { localFS := [], remoteFS := [] }).2.2).localFS
      "/tmp/ssh-upload-1-r" = none := by
  have h := c5_cleanup_on_every_path
    { privateKey := some "KEY", username := some "root", knownHosts := [] }
    { host := "h", port := 22, command := "id", username := none,
      workingDirectory := none }
    { host := "h", port := 22, script := "", username := none,
      interpreter := none, workingDirectory := none }
    { host := "h", port := 22, content := "hi", destinationPath := "/f",
      username := none, encoding := "text", permissions := none }
    { host := "h", port := 22, sourcePath := "/f", username := none,
      encoding := "text" }
    { host := "h", port := 22, username := none }
    { server :=
        { reachable := true
          presentedHostKey := "hk"
          acceptedLogins := [("root", "KEY")] }
      connectMillis := 0
      exec := Except.ok { stdout := "", stderr := "", code := 0 }
      execMillis := 0 }
    { server :=
        { reachable := true
          presentedHostKey := "hk"
          acceptedLogins := [("root", "KEY")] }
      connectMillis := 0
      timestamp := 0
      random := ""
      stageExec := Except.ok { stdout := "", stderr := "", code := 0 }
      stageMillis := 0
      chmodExec := Except.ok { stdout := "", stderr := "", code := 0 }
      chmodMillis := 0
      runExec := Except.ok { stdout := "", stderr := "", code := 0 }
      runMillis := 0
      rmExec := Except.ok { stdout := "", stderr := "", code := 0 } }
    { server :=
        { reachable := true
          presentedHostKey := "hk"
          acceptedLogins := [("root", "KEY")] }
      timestamp := 1
      random := "r"
      writeResult := Except.ok ()
      putResult := Except.ok ()
      chmodExec := Except.ok { stdout := "", stderr := "", code := 0 }
      statResult := Except.ok ()
      unlinkResult := Except.ok () }
    { server :=
        { reachable := true
          presentedHostKey := "hk"
          acceptedLogins := [("root", "KEY")] }
      timestamp := 2
      random := "q"
      getResult := Except.ok ()
      statExec := Except.ok { stdout := "644 1700000000", stderr := "", code := 0 }
      unlinkResult := Except.ok () }
    { server :=
        { reachable := true
          presentedHostKey := "hk"
          acceptedLogins := [("root", "KEY")] }
      hostnameExec := Except.ok { stdout := "", stderr := "", code := 0 }
      osTypeExec := Except.ok { stdout := "", stderr := "", code := 0 }
      osReleaseExec := Except.ok { stdout := "", stderr := "", code := 0 }
      archExec := Except.ok { stdout := "", stderr := "", code := 0 }
      uptimeExec := Except.ok { stdout := "", stderr := "", code := 0 }
      loadExec := Except.ok { stdout := "", stderr := "", code := 0 }
      memExec := Except.ok { stdout := "", stderr := "", code := 0 } }
    { localFS := [], remoteFS := [] } { localFS := [], remoteFS := [] }
    (Except.ok ()) (Except.ok ())
    (Except.ok { stdout := "", stderr := "", code := 0 })
  have hmem : BlockAction.writeLocal "/tmp/ssh-upload-1-r" ∈
      (uploadFileRun
        { privateKey := some "KEY", username := some "root", knownHosts := [] }
        { host := "h", port := 22, content := "hi", destinationPath := "/f",
          username := none, encoding := "text", permissions := none }
        { server :=
            { reachable := true
              presentedHostKey := "hk"
              acceptedLogins := [("root", "KEY")] }
          timestamp := 1
          random := "r"
          writeResult := Except.ok ()
          putResult := Except.ok ()
          chmodExec := Except.ok { stdout := "", stderr := "", code := 0 }
          statResult := Except.ok ()
          unlinkResult := Except.ok () }
        { localFS := [], remoteFS := [] }).2.1 := by
    decide
  have h7 := h.2.2.2.2.2.2.1 hmem
  have h9 := h.2.2.2.2.2.2.2.2.1 rfl h7
  exact ⟨rfl, h7, h9⟩

/-- Concrete app config for the C6 counterexample run. -/
def c6App : AppConfig :=
  { privateKey := some "KEY", username := some "root", knownHosts := [] }

/-- Concrete block config for the C6 counterexample run. -/
def c6Input : MetadataInput := { host := "h", port := 22, username := none }

/-- Concrete wire for the C6 counterexample run: the session is established
and authenticated, but the hostname probe's await rejects. -/
def c6Wire : MetadataWire :=
  { server :=
      { reachable := true
        presentedHostKey := "hk"
        acceptedLogins := [("root", "KEY")] }
    hostnameExec := Except.error "channel closed"
    osTypeExec := Except.ok { stdout := "Linux", stderr := "", code := 0 }
    osReleaseExec := Except.ok { stdout := "6.1.0", stderr := "", code := 0 }
    archExec := Except.ok { stdout := "x86_64", stderr := "", code := 0 }
    uptimeExec := Except.ok { stdout := "12.50 3.1", stderr := "", code := 0 }
    loadExec :=
      Except.ok { stdout := "0.10 0.20 0.30 1/2 3", stderr := "", code := 0 }
    memExec :=
      Except.ok { stdout := "MemTotal: 1024 kB", stderr := "", code := 0 } }

/-- C6 counterexample: the claim says every individual sub-probe failure is
caught locally and the overall Collect fails only when the session cannot be
established or authenticated.  In the code only the load-average and memory
probes are wrapped in local try/catch; here the session is established
(connect returns ok) yet a rejected hostname probe reaches the outer catch
and fails the whole sync. -/
theorem c6_probe_throw_fails_sync_counterexample :
    nodeSSHConnect (hostMetadataConnectOptions c6App c6Input) c6Wire.server =
      Except.ok () ∧
    (hostMetadataRun c6App c6Input c6Wire).1 =
      SyncResult.failed "Failed to connect to host: channel closed" :=
  ⟨rfl, rfl⟩

/-- C6 amended: after the config checks and a successful connect, as long as
none of the hostname, uname and uptime probes throws, the sync always
returns ready signals; each field is a function of only its own probe's
result; a probe reporting a non-zero exit code degrades only its own fields
to the zero or empty default; and a thrown (rejected) load-average or
memory probe is caught locally and leaves only the zero defaults.  Only a
thrown hostname, uname or uptime probe fails the overall sync through the
outer catch. -/
theorem c6_amended_probe_degradation (app : AppConfig) (im : MetadataInput)
    (wm : MetadataWire)
    (hpk : jsTruthy app.privateKey = true)
    (hu : jsTruthy (jsOrStr im.username app.username) = true)
    (hconn : nodeSSHConnect (hostMetadataConnectOptions app im) wm.server =
      Except.ok ())
    (r1 r2 r3 r4 r5 : ExecResult)
    (h1 : wm.hostnameExec = Except.ok r1)
    (h2 : wm.osTypeExec = Except.ok r2)
    (h3 : wm.osReleaseExec = Except.ok r3)
    (h4 : wm.archExec = Except.ok r4)
    (h5 : wm.uptimeExec = Except.ok r5) :
    (hostMetadataRun app im wm).1 = SyncResult.ready
      { hostname := trimmedIfOk r1
        osType := osTypeOf r2
        osRelease := trimmedIfOk r3
        architecture := trimmedIfOk r4
        uptime := uptimeSecondsOf r5
        loadAverage := loadAverageOf wm.loadExec
        memoryTotal := memoryTotalOf wm.memExec
        memoryFree := memoryFreeOf wm.memExec } ∧
    (∀ e, loadAverageOf (Except.error e) = { one := 0, five := 0, fifteen := 0 } ∧
      memoryTotalOf (Except.error e) = 0 ∧
      memoryFreeOf (Except.error e) = 0) ∧
    (∀ rr : ExecResult, ¬ rr.code = 0 →
      trimmedIfOk rr = "" ∧ osTypeOf rr = "" ∧ uptimeSecondsOf rr = 0 ∧
      loadAverageOf (Except.ok rr) = { one := 0, five := 0, fifteen := 0 } ∧
      memoryTotalOf (Except.ok rr) = 0 ∧ memoryFreeOf (Except.ok rr) = 0) := by
  refine ⟨?_, ?_, ?_⟩
  · unfold hostMetadataRun
    simp [hpk, hu, hconn, h1, h2, h3, h4, h5]
  · intro e
    exact ⟨rfl, rfl, rfl⟩
  · intro rr hc
    exact ⟨by simp [trimmedIfOk, hc], by simp [osTypeOf, hc],
      by simp [uptimeSecondsOf, hc], by simp [loadAverageOf, hc],
      by simp [memoryTotalOf, hc], by simp [memoryFreeOf, hc]⟩

/-- C6 amended witness: a concrete sync where the load probe throws and the
memory probe exits non-zero still returns ready, with those fields at their
zero defaults and the hostname intact. -/
theorem c6_amended_probe_degradation_witness :
    jsTruthy c6App.privateKey = true ∧
    (hostMetadataRun c6App c6Input
      { c6Wire with
        hostnameExec := Except.ok { stdout := "box\n", stderr := "", code := 0 }
        loadExec := Except.error "channel closed"
        memExec := Except.ok { stdout := "", stderr := "", code := 1 } }).1 =
      SyncResult.ready
        { hostname := trimmedIfOk { stdout := "box\n", stderr := "", code := 0 }
          osType := osTypeOf { stdout := "Linux", stderr := "", code := 0 }
          osRelease :=
            trimmedIfOk { stdout := "6.1.0", stderr := "", code := 0 }
          architecture :=
            trimmedIfOk { stdout := "x86_64", stderr := "", code := 0 }
          uptime :=
            uptimeSecondsOf { stdout := "12.50 3.1", stderr := "", code := 0 }
          loadAverage := { one := 0, five := 0, fifteen := 0 }
          memoryTotal := 0
          memoryFree := 0 } := by
  have h := (c6_amended_probe_degradation c6App c6Input
    { c6Wire with
      hostnameExec := Except.ok { stdout := "box\n", stderr := "", code := 0 }
      loadExec := Except.error "channel closed"
      memExec := Except.ok { stdout := "", stderr := "", code := 1 } }
    rfl rfl rfl
    { stdout := "box\n", stderr := "", code := 0 }
    { stdout := "Linux", stderr := "", code := 0 }
    { stdout := "6.1.0", stderr := "", code := 0 }
    { stdout := "x86_64", stderr := "", code := 0 }
    { stdout := "12.50 3.1", stderr := "", code := 0 }
    rfl rfl rfl rfl rfl).1
  exact ⟨rfl, h⟩

/-- C3: uploading content and downloading the same path round-trips.  With
`encoding="text"` on both sides, the downloaded content is the uploaded
string, byte for byte (its UTF-8 bytes are what was stored).  With
`encoding="base64"` on both sides, an arbitrary binary payload `B` uploaded
as its base64 rendering is stored as exactly `B` and downloaded as the
base64 rendering of `B`, so decoding recovers `B` losslessly. -/
theorem c3_upload_download_roundtrip (app : AppConfig) (iu : UploadInput)
    (idl : DownloadInput) (wu : UploadWire) (wd : DownloadWire) (w : World)
    (rc rs : ExecResult) (n : Int) (B : List Nat)
    (hpk : jsTruthy app.privateKey = true)
    (huU : jsTruthy (jsOrStr iu.username app.username) = true)
    (huD : jsTruthy (jsOrStr idl.username app.username) = true)
    (hconnU : nodeSSHConnect (uploadFileConnectOptions app iu) wu.server =
      Except.ok ())
    (hconnD : nodeSSHConnect (downloadFileConnectOptions app idl) wd.server =
      Except.ok ())
    (hw : wu.writeResult = Except.ok ())
    (hput : wu.putResult = Except.ok ())
    (hch : wu.chmodExec = Except.ok rc)
    (hst : wu.statResult = Except.ok ())
    (hget : wd.getResult = Except.ok ())
    (hstat : wd.statExec = Except.ok rs)
    (hts : (parseStatOutput rs.stdout).2 = some n)
    (hpath : idl.sourcePath = iu.destinationPath)
    (hB : ∀ b ∈ B, b < 256) :
    (iu.encoding = "text" → idl.encoding = "text" →
      ∃ out, (downloadFileRun app idl wd (uploadFileRun app iu wu w).2.2).1 =
        Except.ok out ∧ out.content = iu.content) ∧
    (iu.encoding = "base64" → idl.encoding = "base64" →
      iu.content = String.mk (base64Encode B) →
      ∃ out, (downloadFileRun app idl wd (uploadFileRun app iu wu w).2.2).1 =
        Except.ok out ∧ out.content = String.mk (base64Encode B) ∧
        base64Decode out.content.data = some B) := by
  have hup := uploadFileRun_ok app iu wu w hpk huU hconnU hw hput rc hch hst
  have hremote : readFileBytes ((uploadFileRun app iu wu w).2.2).remoteFS
      idl.sourcePath = some (uploadFileContent iu.encoding iu.content) := by
    rw [hup.2, hpath]
    exact readFileBytes_store_same _ _ _
  have hdl := downloadFileRun_ok app idl wd ((uploadFileRun app iu wu w).2.2)
    hpk huD hconnD hget _ hremote rs hstat n hts
  constructor
  · intro hTe hDe
    refine ⟨_, hdl, ?_⟩
    show downloadContentString idl.encoding
      (uploadFileContent iu.encoding iu.content) = iu.content
    rw [hTe, hDe]
    show downloadContentString "text" (stringUtf8Bytes iu.content) = iu.content
    show bufferToUtf8String (stringUtf8Bytes iu.content) = iu.content
    exact bufferToUtf8String_stringUtf8Bytes iu.content
  · intro hTe hDe hc
    have hbytes : uploadFileContent iu.encoding iu.content = B := by
      rw [hTe, hc]
      show bufferFromBase64 (String.mk (base64Encode B)) = B
      unfold bufferFromBase64
      rw [show (String.mk (base64Encode B)).data = base64Encode B from rfl]
      rw [base64_decode_encode B hB]
      rfl
    have hcontent : downloadContentString idl.encoding
        (uploadFileContent iu.encoding iu.content) =
        String.mk (base64Encode B) := by
      rw [hDe, hbytes]
      show String.mk (base64Encode B) = String.mk (base64Encode B)
      rfl
    refine ⟨_, hdl, ?_, ?_⟩
    · exact hcontent
    · show base64Decode (downloadContentString idl.encoding
        (uploadFileContent iu.encoding iu.content)).data = some B
      rw [hcontent]
      rw [show (String.mk (base64Encode B)).data = base64Encode B from rfl]
      exact base64_decode_encode B hB

/-- Concrete app config for the C3 witness. -/
def c3AppW : AppConfig :=
  { privateKey := some "KEY", username := some "root", knownHosts := [] }

/-- Concrete server for the C3 witness. -/
def c3Server : SSHServer :=
  { reachable := true
    presentedHostKey := "hk"
    acceptedLogins := [("root", "KEY")] }

/-- Concrete fully-successful upload wire for the C3 witness. -/
def c3UpWire : UploadWire :=
  { server := c3Server
    timestamp := 1
    random := "r"
    writeResult := Except.ok ()
    putResult := Except.ok ()
    chmodExec := Except.ok { stdout := "", stderr := "", code := 0 }
    statResult := Except.ok ()
    unlinkResult := Except.ok () }

/-- Concrete fully-successful download wire for the C3 witness. -/
def c3DlWire : DownloadWire :=
  { server := c3Server
    timestamp := 2
    random := "q"
    getResult := Except.ok ()
    statExec := Except.ok { stdout := "644 1700000000", stderr := "", code := 0 }
    unlinkResult := Except.ok () }

/-- Empty world for the C3 witness. -/
def c3World : World := { localFS := [], remoteFS := [] }

/-- Text upload input for the C3 witness. -/
def c3UpText : UploadInput :=
  { host := "h", port := 22, content := "hi", destinationPath := "/f",
    username := none, encoding := "text", permissions := none }

/-- Text download input for the C3 witness. -/
def c3DlText : DownloadInput :=
  { host := "h", port := 22, sourcePath := "/f", username := none,
    encoding := "text" }

/-- Base64 upload input for the C3 witness: the payload 104, 105 uploaded
as its base64 rendering. -/
def c3UpB64 : UploadInput :=
  { host := "h", port := 22, content := String.mk (base64Encode [104, 105]),
    destinationPath := "/f", username := none, encoding := "base64",
    permissions := none }

/-- Base64 download input for the C3 witness. -/
def c3DlB64 : DownloadInput :=
  { host := "h", port := 22, sourcePath := "/f", username := none,
    encoding := "base64" }

/-- C3 witness: the concrete text round-trip returns "hi" and the concrete
base64 round-trip returns the rendering of the payload, which decodes back
to the payload. -/
theorem c3_upload_download_roundtrip_witness :
    (∀ b ∈ [104, 105], b < 256) ∧
    (∃ out, (downloadFileRun c3AppW c3DlText c3DlWire
        (uploadFileRun c3AppW c3UpText c3UpWire c3World).2.2).1 =
      Except.ok out ∧ out.content = "hi") ∧
    (∃ out, (downloadFileRun c3AppW c3DlB64 c3DlWire
        (uploadFileRun c3AppW c3UpB64 c3UpWire c3World).2.2).1 =
      Except.ok out ∧ out.content = String.mk (base64Encode [104, 105]) ∧
      base64Decode out.content.data = some [104, 105]) := by
  refine ⟨by decide, ?_, ?_⟩
  · have h := (c3_upload_download_roundtrip c3AppW c3UpText c3DlText c3UpWire
      c3DlWire c3World { stdout := "", stderr := "", code := 0 }
      { stdout := "644 1700000000", stderr := "", code := 0 }
      1700000000 [104, 105]
      rfl rfl rfl rfl rfl rfl rfl rfl rfl rfl rfl rfl rfl
      (by decide)).1 rfl rfl
    rcases h with ⟨out, hout, hc⟩
    exact ⟨out, hout, hc.trans rfl⟩
  · have h := (c3_upload_download_roundtrip c3AppW c3UpB64 c3DlB64 c3UpWire
      c3DlWire c3World { stdout := "", stderr := "", code := 0 }
      { stdout := "644 1700000000", stderr := "", code := 0 }
      1700000000 [104, 105]
      rfl rfl rfl rfl rfl rfl rfl rfl rfl rfl rfl rfl rfl
      (by decide)).2 rfl rfl rfl
    exact h
